import Mathlib

/-!
# ponynotes_xournalpp: session table, stroke ingestion and page rendering

A shallow embedding of `src/libponynotes/src/ponynotes_xournalpp.cpp` and of
the interface header `src/libponynotes/include/ponynotes_xournalpp.h`.

* The global variables `g_documents` and `g_initialized` are the fields of
  `Store`; every exported function takes the store and returns the new store
  together with its status code and the values written through its out
  pointers.
* A pointer argument is an `Option` (`none` is the null pointer); an out
  pointer is a `Bool` (`true`: not null) and the value written through it is
  part of the result.
* `double` values are binary64 values (`Dbl`) with round-to-nearest-even
  arithmetic; a `float` field is a `Dbl` as well, since the conversion
  `float -> double` preserves the value.
* Calls into the file-format codec, the PDF decoder and the raster backend
  are parameters of the functions that make them: each gives the outcome of the
  call (a result, or a thrown exception).
* `std::lock_guard` on `g_documents_mutex` is scoped to the function body and
  is not part of the state. The two locks of a document, `PonyNotesDocument::mutex`
  and the lock behind `Document::lock()`, are explicit state.
* The model is sequential: one call runs at a time, so taking a lock never waits.
* The containers of the document model hold objects, never null pointers: the
  guard `if (!layer)` on `layers[0]` cannot fire and has no counterpart here.
* Memory exhaustion (`std::bad_alloc`) is outside the model, and so are the log
  calls `g_message` and `g_warning`.
-/

namespace PonyNotes

/-! ## binary64 values -/

/-- A binary64 value. `fin neg k` is the finite value `(-1)^neg * k * 2^(-1074)`:
every finite double is a whole multiple of the smallest subnormal `2^(-1074)`.
`fin false 0` is `+0.0` and `fin true 0` is `-0.0`. -/
inductive Dbl where
  | nan
  | inf (neg : Bool)
  | fin (neg : Bool) (k : Nat)
deriving DecidableEq, Repr

namespace Dbl

/-- The value 1.0 counted in units of `2^(-1074)`. -/
def ONE : Nat := 1 <<< 1074

/-- The first magnitude past the finite range: `2^1024` in units of `2^(-1074)`. -/
def LIMIT : Nat := 1 <<< 2098

/-- Nearest natural number to `n / d`, ties to even. -/
def rne (n d : Nat) : Nat :=
  let q := n / d
  let r := n % d
  if 2 * r < d then q
  else if d < 2 * r then q + 1
  else if q % 2 = 0 then q else q + 1

/-- Worker of `log2`. -/
def log2Aux : Nat → Nat → Nat
  | 0, _ => 0
  | fuel + 1, n => if n < 2 then 0 else log2Aux fuel (n / 2) + 1

/-- Floor of the binary logarithm (0 at 0). -/
def log2 (n : Nat) : Nat := log2Aux n n

/-- Round `n / d` (in units of `2^(-1074)`) to 53 significant bits, nearest even.
Below `2^53` units the spacing of doubles is one unit (subnormals and the
first binade); above, it is `2^(l - 52)` units in the binade `[2^l, 2^(l+1))`. -/
@[irreducible]
def round53 (n d : Nat) : Nat :=
  let l := log2 (n / d)
  if l < 53 then rne n d
  else rne n (d <<< (l - 52)) <<< (l - 52)

/-- The double nearest to `(-1)^neg * n / d` units; overflow gives an infinity. -/
def ofRatio (neg : Bool) (n d : Nat) : Dbl :=
  let k := round53 n d
  if LIMIT ≤ k then inf neg else fin neg k

/-- Conversion `int -> double` (exact for 32-bit integers). -/
def ofInt (n : Int) : Dbl := ofRatio (decide (n < 0)) (n.natAbs * ONE) 1

/-- A decimal literal `num / den` of the source text, converted as the compiler does. -/
def ofDecimal (num den : Nat) : Dbl := ofRatio false (num * ONE) den

/-- IEEE 754 division. -/
def div : Dbl → Dbl → Dbl
  | nan, _ => nan
  | _, nan => nan
  | inf _, inf _ => nan
  | inf s, fin t _ => inf (xor s t)
  | fin s _, inf t => fin (xor s t) 0
  | fin s a, fin t b =>
    if b = 0 then (if a = 0 then nan else inf (xor s t))
    else ofRatio (xor s t) (a * ONE) b

/-- IEEE 754 multiplication. -/
def mul : Dbl → Dbl → Dbl
  | nan, _ => nan
  | _, nan => nan
  | inf s, inf t => inf (xor s t)
  | inf s, fin t b => if b = 0 then nan else inf (xor s t)
  | fin s a, inf t => if a = 0 then nan else inf (xor s t)
  | fin s a, fin t b => ofRatio (xor s t) (a * b) ONE

/-- Position of a value that is not a NaN on the extended number line. -/
def key : Dbl → Int
  | nan => 0
  | inf s => if s then - (LIMIT : Int) else (LIMIT : Int)
  | fin s k => if s then - (k : Int) else (k : Int)

/-- The comparison `a < b` (false when either side is a NaN). -/
def lt : Dbl → Dbl → Bool
  | nan, _ => false
  | _, nan => false
  | a, b => decide (key a < key b)

/-- The comparison `a <= b` (false when either side is a NaN). -/
def le : Dbl → Dbl → Bool
  | nan, _ => false
  | _, nan => false
  | a, b => decide (key a ≤ key b)

/-- The conversion `static_cast<int>(d)`: truncation toward zero; `none` where the
value does not fit a 32-bit `int` (undefined behaviour in C++). -/
def toInt : Dbl → Option Int
  | nan => none
  | inf _ => none
  | fin s k =>
    let t : Int := if s then - ((k / ONE : Nat) : Int) else ((k / ONE : Nat) : Int)
    if -2147483648 ≤ t ∧ t ≤ 2147483647 then some t else none

/-- The literal `0.0`. -/
def zero : Dbl := fin false 0

/-- The literal `1.0`. -/
def one : Dbl := fin false ONE

/-- The literal `2.0`. -/
def two : Dbl := fin false (2 * ONE)

/-- The literal `10.0`. -/
def ten : Dbl := fin false (10 * ONE)

/-- A finite value greater than zero. -/
def isPositiveFinite : Dbl → Bool
  | fin false k => decide (0 < k)
  | _ => false

/-- The value is one a `double` can hold: rounding leaves it alone. -/
def Representable : Dbl → Prop
  | fin s k => ofRatio s k 1 = fin s k
  | _ => True

instance decRepresentable : (d : Dbl) → Decidable d.Representable
  | nan => isTrue trivial
  | inf _ => isTrue trivial
  | fin s k => inferInstanceAs (Decidable (ofRatio s k 1 = fin s k))

end Dbl

/-! ## the interface header -/

/-- The status code `PN_SUCCESS`. -/
def PN_SUCCESS : Int := 0

/-- The status code `PN_ERROR_INVALID_HANDLE`. -/
def PN_ERROR_INVALID_HANDLE : Int := -1

/-- The status code `PN_ERROR_INVALID_PARAM`. -/
def PN_ERROR_INVALID_PARAM : Int := -2

/-- The status code `PN_ERROR_FILE_NOT_FOUND`. -/
def PN_ERROR_FILE_NOT_FOUND : Int := -3

/-- The status code `PN_ERROR_IO_ERROR`. -/
def PN_ERROR_IO_ERROR : Int := -4

/-- The status code `PN_ERROR_UNKNOWN`. -/
def PN_ERROR_UNKNOWN : Int := -99

/-- The type `PN_DOC_HANDLE` (`void*`): an address; 0 is the null pointer. -/
abbrev PN_DOC_HANDLE := Nat

/-- The null pointer as a handle. -/
def NULL : PN_DOC_HANDLE := 0

/-- The struct `PN_STROKE_POINT`. The three `float` fields hold binary64 values here. -/
structure PN_STROKE_POINT where
  x : Dbl
  y : Dbl
  pressure : Dbl
  timestamp : Int
  tool : Int
  phase : Int
deriving DecidableEq, Repr

/-- Conversion `size_t -> int` (`static_cast<int>`): the value modulo `2^32`, read as
a signed 32-bit integer. -/
def castInt (n : Nat) : Int := (((n + 2147483648) % 4294967296 : Nat) : Int) - 2147483648

/-! ## the document model

The classes of `model/` are declared outside the two source files. They are
modelled from the data model of the specification, with the member functions
the source calls. -/

/-- Modelled from the spec: class `Point` of `model/Point.h`, a sample of a stroke,
position `x`, `y` and the pressure `z` (a pressure in (0, 1] or the sentinel). -/
structure Point where
  x : Dbl
  y : Dbl
  z : Dbl
deriving DecidableEq, Repr

/-- Modelled from the spec: the sentinel `Point::NO_PRESSURE` of `model/Point.h`,
the pressure of a point of a stroke of uniform width ("absent"); a value outside
(0, 1], taken to be -1.0. -/
def Point.NO_PRESSURE : Dbl := Dbl.fin true Dbl.ONE

/-- Modelled from the spec: the tool kinds of a stroke, `{Pen, Eraser, Highlighter,
Pencil}`. The source names `StrokeTool::PEN`, `StrokeTool::ERASER` and
`StrokeTool::HIGHLIGHTER`. -/
inductive StrokeTool where
  | PEN
  | ERASER
  | HIGHLIGHTER
  | PENCIL
deriving DecidableEq, Repr

/-- Modelled from the spec: an RGBA colour (`util/Color.h`). -/
structure Color where
  rgba : Nat
deriving DecidableEq, Repr

/-- Modelled from the spec: `Colors::black`, the fixed default colour of a stroke. -/
def Colors.black : Color := ⟨0x000000ff⟩

/-- Modelled from the spec: class `Stroke` of `model/Stroke.h`: an ordered sequence
of points with a tool, a width and a colour. -/
structure Stroke where
  toolType : StrokeTool
  width : Dbl
  color : Color
  points : List Point
deriving DecidableEq, Repr

/-- Modelled from the spec: the stroke `std::make_unique<Stroke>()` creates, with no
points; the source sets tool, width and colour before it adds points. -/
def Stroke.new : Stroke :=
  { toolType := StrokeTool.PEN, width := Dbl.one, color := Colors.black, points := [] }

/-- Modelled from the spec: `Stroke::setToolType` sets the tool of the stroke. -/
def Stroke.setToolType (st : Stroke) (t : StrokeTool) : Stroke := { st with toolType := t }

/-- Modelled from the spec: `Stroke::setWidth` sets the width of the stroke. -/
def Stroke.setWidth (st : Stroke) (w : Dbl) : Stroke := { st with width := w }

/-- Modelled from the spec: `Stroke::setColor` sets the colour of the stroke. -/
def Stroke.setColor (st : Stroke) (c : Color) : Stroke := { st with color := c }

/-- Modelled from the spec: `Stroke::addPoint` appends a point to the point sequence. -/
def Stroke.addPoint (st : Stroke) (p : Point) : Stroke := { st with points := st.points ++ [p] }

/-- Modelled from the spec: a drawable element of a layer, a stroke or an element of
another kind (out of the core's scope, kept by an identifier). -/
inductive Element where
  | stroke (s : Stroke)
  | other (id : Nat)
deriving DecidableEq, Repr

/-- Modelled from the spec: class `Layer` of `model/Layer.h`, an ordered sequence of
drawable elements. -/
structure Layer where
  elements : List Element
deriving DecidableEq, Repr

/-- Modelled from the spec: `Layer::addElement` appends at the end (append-only). -/
def Layer.addElement (l : Layer) (e : Element) : Layer := { l with elements := l.elements ++ [e] }

/-- Modelled from the spec: the background of a page, `Plain`, `Image` or `PdfPage`
(`PageTypeFormat` of `model/PageType.h`). -/
inductive PageTypeFormat where
  | Plain
  | Image
  | Pdf
deriving DecidableEq, Repr

/-- Modelled from the spec: struct `PageType` of `model/PageType.h`. -/
structure PageType where
  format : PageTypeFormat
deriving DecidableEq, Repr

/-- Modelled from the spec: class `XojPage` of `model/XojPage.h`: geometry, background
and layers. -/
structure XojPage where
  width : Dbl
  height : Dbl
  bgType : PageType
  pdfPageNr : Nat
  layers : List Layer
deriving DecidableEq, Repr

/-- Modelled from the spec: the constructor `XojPage(width, height)`. A page has at
least one layer and layer 0 is the target of ingested strokes: the new page has
one empty layer. -/
def XojPage.new (width height : Dbl) : XojPage :=
  { width := width, height := height, bgType := ⟨PageTypeFormat.Plain⟩, pdfPageNr := 0,
    layers := [⟨[]⟩] }

/-- Modelled from the spec: `XojPage::setBackgroundType` sets the background. -/
def XojPage.setBackgroundType (p : XojPage) (t : PageType) : XojPage := { p with bgType := t }

/-- Modelled from the spec: class `Document` of `model/Document.h`: the pages, the
file path (set on save), the number of pages of the attached PDF, and the
reentrant lock behind `lock()` and `unlock()`, held `lockDepth` times. -/
structure Document where
  pages : List XojPage
  filepath : Option String
  pdfPageCount : Nat
  lockDepth : Nat
deriving DecidableEq, Repr

/-- Modelled from the spec: the document `std::make_shared<Document>(handler)`
creates: new and empty, no file path, no PDF attached, lock free. -/
def Document.new : Document :=
  { pages := [], filepath := none, pdfPageCount := 0, lockDepth := 0 }

/-- Modelled from the spec: `Document::lock()` acquires the reentrant lock. -/
def Document.lock (d : Document) : Document := { d with lockDepth := d.lockDepth + 1 }

/-- Modelled from the spec: `Document::unlock()` releases the lock once. -/
def Document.unlock (d : Document) : Document := { d with lockDepth := d.lockDepth - 1 }

/-- Modelled from the spec: `Document::addPage` appends a page to the page sequence. -/
def Document.addPage (d : Document) (p : XojPage) : Document := { d with pages := d.pages ++ [p] }

/-- Modelled from the spec: `Document::getPageCount`, the number of pages. -/
def Document.getPageCount (d : Document) : Nat := d.pages.length

/-- Modelled from the spec: `Document::getPage(i)`, the page of index `i`, or a null
`PageRef` past the end. -/
def Document.getPage (d : Document) (i : Nat) : Option XojPage := d.pages[i]?

/-- Modelled from the spec: `Document::setFilepath` stores the file path. -/
def Document.setFilepath (d : Document) (path : String) : Document :=
  { d with filepath := some path }

/-- The struct `PonyNotesDocument`: the document, whether a `PdfCache` is attached,
and whether `mutex` is held. -/
structure PonyNotesDocument where
  doc : Document
  pdfCache : Bool
  mutex : Bool
deriving DecidableEq, Repr

/-- The constructor `PonyNotesDocument()`. -/
def PonyNotesDocument.new : PonyNotesDocument :=
  { doc := Document.new, pdfCache := false, mutex := false }

/-! ## the session table -/

/-- The map `g_documents`, by entries. The keys of a `std::unordered_map` are
unique; `find` reads the entry of a key, `assign` writes it and `erase` removes it. -/
abbrev DocMap := List (PN_DOC_HANDLE × PonyNotesDocument)

/-- The lookup `g_documents.find(doc)`. -/
def DocMap.find : DocMap → PN_DOC_HANDLE → Option PonyNotesDocument
  | [], _ => none
  | (k, d) :: rest, h => if k = h then some d else DocMap.find rest h

/-- The assignment `g_documents[handle] = d`, also the write through `it->second`. -/
def DocMap.assign : DocMap → PN_DOC_HANDLE → PonyNotesDocument → DocMap
  | [], h, d => [(h, d)]
  | (k, v) :: rest, h, d => if k = h then (h, d) :: rest else (k, v) :: DocMap.assign rest h d

/-- The removal `g_documents.erase(it)` of the entry of key `h`. -/
def DocMap.erase : DocMap → PN_DOC_HANDLE → DocMap
  | [], _ => []
  | (k, v) :: rest, h => if k = h then DocMap.erase rest h else (k, v) :: DocMap.erase rest h

/-- The global state of the library. -/
structure Store where
  g_initialized : Bool
  g_documents : DocMap
deriving DecidableEq, Repr

/-- The state of the process before any call. -/
def Store.initial : Store := { g_initialized := false, g_documents := [] }

/-- Outcome of a call that may throw. -/
inductive Outcome where
  | ok
  | fault
deriving DecidableEq, Repr

/-- Scope of a `std::lock_guard<std::mutex> doc_lock(pn_doc->mutex)`: the mutex is
taken on entry and released when the scope is left, on every return path and
when an exception leaves the scope. -/
def lock_guard {α : Type} (pn_doc : PonyNotesDocument)
    (body : PonyNotesDocument → PonyNotesDocument × α) : PonyNotesDocument × α :=
  let r := body { pn_doc with mutex := true }
  ({ r.1 with mutex := false }, r.2)

/-! ## the exported functions -/

/-- The function `pn_xournal_init`. -/
def pn_xournal_init (s : Store) (_config_json : Option String) : Store × Int :=
  ({ s with g_initialized := true }, PN_SUCCESS)

/-- The function `pn_xournal_shutdown`. -/
def pn_xournal_shutdown (_s : Store) : Store × Int :=
  ({ g_initialized := false, g_documents := [] }, PN_SUCCESS)

/-- The literal `595.275591` (A4 width in points). -/
def A4_WIDTH : Dbl := Dbl.ofDecimal 595275591 1000000

/-- The literal `841.889764` (A4 height in points). -/
def A4_HEIGHT : Dbl := Dbl.ofDecimal 841889764 1000000

/-- The function `pn_xournal_doc_create`. `addr` is the address of the
`PonyNotesDocument` that `std::make_unique` allocates; the third component of the
result is the handle written to `*out_doc`. -/
def pn_xournal_doc_create (s : Store) (out_doc : Bool) (_options_json : Option String)
    (addr : PN_DOC_HANDLE) : Store × Int × Option PN_DOC_HANDLE :=
  if !s.g_initialized then (s, PN_ERROR_UNKNOWN, none)
  else if !out_doc then (s, PN_ERROR_INVALID_PARAM, none)
  else
    let pn_doc := PonyNotesDocument.new
    let page := (XojPage.new A4_WIDTH A4_HEIGHT).setBackgroundType ⟨PageTypeFormat.Plain⟩
    let doc := ((pn_doc.doc.lock).addPage page).unlock
    let pn_doc := { pn_doc with doc := doc }
    ({ s with g_documents := DocMap.assign s.g_documents addr pn_doc }, PN_SUCCESS, some addr)

/-- Outcome of `LoadHandler::loadDocument` followed by `getLastError`. -/
inductive LoadResult where
  | fault
  | loaded (doc : Option Document) (lastError : String)
deriving DecidableEq, Repr

/-- The function `pn_xournal_doc_open`. -/
def pn_xournal_doc_open (s : Store) (out_doc : Bool) (xopp_path : Option String)
    (loader : LoadResult) (addr : PN_DOC_HANDLE) : Store × Int × Option PN_DOC_HANDLE :=
  if !s.g_initialized || !out_doc || xopp_path.isNone then (s, PN_ERROR_INVALID_PARAM, none)
  else
    match loader with
    | LoadResult.fault => (s, PN_ERROR_UNKNOWN, none)
    | LoadResult.loaded none _ => (s, PN_ERROR_FILE_NOT_FOUND, none)
    | LoadResult.loaded (some loaded_doc) lastError =>
      if lastError.length > 0 then (s, PN_ERROR_FILE_NOT_FOUND, none)
      else
        let pn_doc := { PonyNotesDocument.new with doc := loaded_doc }
        ({ s with g_documents := DocMap.assign s.g_documents addr pn_doc }, PN_SUCCESS, some addr)

/-- Outcome of `Document::readPdf`: an exception, a failure with the text of
`getLastErrorMsg`, or the pages and the PDF page count the document then has. -/
inductive ReadPdfResult where
  | fault
  | failed (lastErrorMsg : String)
  | success (pages : List XojPage) (pdfPageCount : Nat)
deriving DecidableEq, Repr

/-- The function `pn_xournal_doc_open_pdf`. `pdfCacheCtor` is the outcome of the
constructor of `PdfCache`, called when the PDF has a page. -/
def pn_xournal_doc_open_pdf (s : Store) (out_doc : Bool) (pdf_path : Option String)
    (_attach_to_document : Int) (readPdf : ReadPdfResult) (pdfCacheCtor : Outcome)
    (addr : PN_DOC_HANDLE) : Store × Int × Option PN_DOC_HANDLE :=
  if !s.g_initialized || !out_doc || pdf_path.isNone then (s, PN_ERROR_INVALID_PARAM, none)
  else
    let pn_doc := PonyNotesDocument.new
    match readPdf with
    | ReadPdfResult.fault => (s, PN_ERROR_UNKNOWN, none)
    | ReadPdfResult.failed error =>
      if error.isEmpty then (s, PN_ERROR_FILE_NOT_FOUND, none) else (s, PN_ERROR_IO_ERROR, none)
    | ReadPdfResult.success pages pdfPageCount =>
      let doc := { pn_doc.doc with pages := pages, pdfPageCount := pdfPageCount }
      let doc := doc.lock
      let pdfCache :=
        if doc.pdfPageCount > 0 then
          (match pdfCacheCtor with
           | Outcome.ok => true
           | Outcome.fault => pn_doc.pdfCache)
        else pn_doc.pdfCache
      let doc := doc.unlock
      let pn_doc := { pn_doc with doc := doc, pdfCache := pdfCache }
      ({ s with g_documents := DocMap.assign s.g_documents addr pn_doc }, PN_SUCCESS, some addr)

/-- The function `pn_xournal_doc_save`. `saver` is the outcome of
`SaveHandler::prepareSave` followed by `SaveHandler::saveTo`: the only failure of
the write the function observes is an exception, caught by `catch (...)`. -/
def pn_xournal_doc_save (s : Store) (doc : PN_DOC_HANDLE) (xopp_path : Option String)
    (saver : Outcome) : Store × Int :=
  match xopp_path with
  | none => (s, PN_ERROR_INVALID_PARAM)
  | some path =>
    if doc = NULL then (s, PN_ERROR_INVALID_PARAM)
    else
      match DocMap.find s.g_documents doc with
      | none => (s, PN_ERROR_INVALID_HANDLE)
      | some pn_doc =>
        let d := pn_doc.doc.lock
        let d := d.setFilepath path
        match saver with
        | Outcome.fault =>
          ({ s with g_documents := DocMap.assign s.g_documents doc { pn_doc with doc := d } },
            PN_ERROR_IO_ERROR)
        | Outcome.ok =>
          let d := d.unlock
          ({ s with g_documents := DocMap.assign s.g_documents doc { pn_doc with doc := d } },
            PN_SUCCESS)

/-- The function `pn_xournal_doc_close`. -/
def pn_xournal_doc_close (s : Store) (doc : PN_DOC_HANDLE) : Store × Int :=
  if doc = NULL then (s, PN_ERROR_INVALID_PARAM)
  else
    match DocMap.find s.g_documents doc with
    | none => (s, PN_ERROR_INVALID_HANDLE)
    | some _ => ({ s with g_documents := DocMap.erase s.g_documents doc }, PN_SUCCESS)

/-- The tool type `pn_xournal_doc_handle_stroke` sets, from the field `tool` of
`points[0]`. -/
def toolType (tool : Int) : StrokeTool :=
  if tool = 1 then StrokeTool.ERASER
  else if tool = 2 then StrokeTool.HIGHLIGHTER
  else StrokeTool.PEN

/-- The width `pn_xournal_doc_handle_stroke` sets. -/
def defaultWidth (t : StrokeTool) : Dbl :=
  if t = StrokeTool.HIGHLIGHTER then Dbl.ten else Dbl.two

/-- The point `xojPoint` built from an input point in the loop of
`pn_xournal_doc_handle_stroke`. -/
def xojPoint (pt : PN_STROKE_POINT) : Point :=
  let pressure :=
    if Dbl.lt Dbl.zero pt.pressure && Dbl.le pt.pressure Dbl.one then pt.pressure
    else Point.NO_PRESSURE
  { x := pt.x, y := pt.y, z := pressure }

/-- The loop `for (int i = 0; i < count; i++)` of `pn_xournal_doc_handle_stroke`,
from index `i` with `n` iterations to go. -/
def addPoints (points : Nat → PN_STROKE_POINT) : Nat → Nat → Stroke → Stroke
  | _, 0, stroke => stroke
  | i, n + 1, stroke => addPoints points (i + 1) n (stroke.addPoint (xojPoint (points i)))

/-- The stroke `pn_xournal_doc_handle_stroke` builds from the batch. -/
def buildStroke (points : Nat → PN_STROKE_POINT) (count : Int) : Stroke :=
  let stroke := Stroke.new
  let t := toolType (points 0).tool
  let stroke := stroke.setToolType t
  let stroke := stroke.setWidth (defaultWidth t)
  let stroke := stroke.setColor Colors.black
  addPoints points 0 count.toNat stroke

/-- The body of the `try` block of `pn_xournal_doc_handle_stroke`, under the document
mutex. -/
def handle_stroke_body (points : Nat → PN_STROKE_POINT) (count : Int)
    (pn_doc : PonyNotesDocument) : PonyNotesDocument × Int :=
  if pn_doc.doc.getPageCount = 0 then (pn_doc, PN_ERROR_INVALID_PARAM)
  else
    match pn_doc.doc.getPage 0 with
    | none => (pn_doc, PN_ERROR_INVALID_PARAM)
    | some page =>
      match page.layers with
      | [] => (pn_doc, PN_ERROR_INVALID_PARAM)
      | layer :: others =>
        let stroke := buildStroke points count
        let layer := layer.addElement (Element.stroke stroke)
        let page := { page with layers := layer :: others }
        ({ pn_doc with doc := { pn_doc.doc with pages := pn_doc.doc.pages.set 0 page } },
          PN_SUCCESS)

/-- The function `pn_xournal_doc_handle_stroke`. `points` is the array behind the
pointer, by index (`none`: a null pointer); the call reads the indices below
`count`. -/
def pn_xournal_doc_handle_stroke (s : Store) (doc : PN_DOC_HANDLE)
    (points : Option (Nat → PN_STROKE_POINT)) (count : Int) : Store × Int :=
  match points with
  | none => (s, PN_ERROR_INVALID_PARAM)
  | some pts =>
    if doc = NULL ∨ count ≤ 0 then (s, PN_ERROR_INVALID_PARAM)
    else
      match DocMap.find s.g_documents doc with
      | none => (s, PN_ERROR_INVALID_HANDLE)
      | some pn_doc =>
        let r := lock_guard pn_doc (handle_stroke_body pts count)
        ({ s with g_documents := DocMap.assign s.g_documents doc r.1 }, r.2)

/-- The raster backend as `pn_xournal_doc_render_page_to_png` sees it: whether
`cairo_image_surface_create` gives a usable surface of the given size, whether
`cairo_create` gives a usable context, whether `DocumentView::drawPage` throws,
and whether `cairo_surface_write_to_png` reports success. -/
structure RasterBackend where
  surface_create : Int → Int → Bool
  create : Bool
  drawPage : Outcome
  write_to_png : Bool

/-- The variable `scaleX` (and `scaleY`) of `pn_xournal_doc_render_page_to_png`. -/
def axisScale (target : Int) (pageExtent : Dbl) : Dbl :=
  if target > 0 then Dbl.div (Dbl.ofInt target) pageExtent else Dbl.one

/-- The variable `scale` of `pn_xournal_doc_render_page_to_png`. -/
def renderScale (width height : Int) (pageWidth pageHeight : Dbl) : Dbl :=
  let scaleX := axisScale width pageWidth
  let scaleY := axisScale height pageHeight
  if Dbl.lt scaleX scaleY then scaleX else scaleY

/-- The variables `renderWidth` and `renderHeight` of
`pn_xournal_doc_render_page_to_png` (`none`: the cast is undefined). -/
def renderSize (width height : Int) (pageWidth pageHeight : Dbl) : Option Int × Option Int :=
  let scale := renderScale width height pageWidth pageHeight
  ((Dbl.mul pageWidth scale).toInt, (Dbl.mul pageHeight scale).toInt)

/-- What a call of `pn_xournal_doc_render_page_to_png` leaves: the store, the status,
and the size of the surface it asked the backend for, when it came that far. -/
structure RenderResult where
  store : Store
  status : Int
  surface : Option (Int × Int)
deriving DecidableEq, Repr

/-- The body of the `try` block of `pn_xournal_doc_render_page_to_png`, under the
document mutex (`none`: undefined behaviour in a cast). -/
def render_body (page_index width height : Int) (backend : RasterBackend)
    (pn_doc : PonyNotesDocument) : Option (Int × Option (Int × Int)) :=
  if page_index ≥ castInt pn_doc.doc.getPageCount then some (PN_ERROR_INVALID_PARAM, none)
  else
    match pn_doc.doc.getPage page_index.toNat with
    | none => some (PN_ERROR_INVALID_PARAM, none)
    | some page =>
      match renderSize width height page.width page.height with
      | (some renderWidth, some renderHeight) =>
        if !backend.surface_create renderWidth renderHeight then
          some (PN_ERROR_IO_ERROR, some (renderWidth, renderHeight))
        else if !backend.create then
          some (PN_ERROR_IO_ERROR, some (renderWidth, renderHeight))
        else
          match backend.drawPage with
          | Outcome.fault => some (PN_ERROR_UNKNOWN, some (renderWidth, renderHeight))
          | Outcome.ok =>
            if !backend.write_to_png then
              some (PN_ERROR_IO_ERROR, some (renderWidth, renderHeight))
            else some (PN_SUCCESS, some (renderWidth, renderHeight))
      | _ => none

/-- The function `pn_xournal_doc_render_page_to_png` (`none`: undefined behaviour in
a cast). -/
def pn_xournal_doc_render_page_to_png (s : Store) (doc : PN_DOC_HANDLE) (page_index : Int)
    (png_path : Option String) (width height : Int) (_options_json : Option String)
    (backend : RasterBackend) : Option RenderResult :=
  if doc = NULL ∨ png_path.isNone ∨ page_index < 0 then
    some { store := s, status := PN_ERROR_INVALID_PARAM, surface := none }
  else
    match DocMap.find s.g_documents doc with
    | none => some { store := s, status := PN_ERROR_INVALID_HANDLE, surface := none }
    | some pn_doc =>
      let r := lock_guard pn_doc
        (fun pn => (pn, render_body page_index width height backend pn))
      match r.2 with
      | none => none
      | some (status, surface) =>
        some { store := { s with g_documents := DocMap.assign s.g_documents doc r.1 },
               status := status, surface := surface }

/-- The function `pn_xournal_doc_get_page_count`; the third component is the value
written to `*out_count`. -/
def pn_xournal_doc_get_page_count (s : Store) (doc : PN_DOC_HANDLE) (out_count : Bool) :
    Store × Int × Option Int :=
  if doc = NULL ∨ !out_count then (s, PN_ERROR_INVALID_PARAM, none)
  else
    match DocMap.find s.g_documents doc with
    | none => (s, PN_ERROR_INVALID_HANDLE, none)
    | some pn_doc =>
      let d := pn_doc.doc.lock
      let count := castInt d.getPageCount
      let d := d.unlock
      ({ s with g_documents := DocMap.assign s.g_documents doc { pn_doc with doc := d } },
        PN_SUCCESS, some count)

/-- The function `pn_xournal_doc_get_page_size`; the third component is the pair
written to `*out_width` and `*out_height` (outer `none`: a null `PageRef` is
dereferenced). -/
def pn_xournal_doc_get_page_size (s : Store) (doc : PN_DOC_HANDLE) (page_index : Int)
    (out_width out_height : Bool) : Option (Store × Int × Option (Dbl × Dbl)) :=
  if doc = NULL ∨ !out_width ∨ !out_height ∨ page_index < 0 then
    some (s, PN_ERROR_INVALID_PARAM, none)
  else
    match DocMap.find s.g_documents doc with
    | none => some (s, PN_ERROR_INVALID_HANDLE, none)
    | some pn_doc =>
      let d := pn_doc.doc.lock
      if page_index ≥ castInt d.getPageCount then
        let d := d.unlock
        some ({ s with g_documents := DocMap.assign s.g_documents doc { pn_doc with doc := d } },
          PN_ERROR_INVALID_PARAM, none)
      else
        match d.getPage page_index.toNat with
        | none => none
        | some page =>
          let d := d.unlock
          some ({ s with g_documents := DocMap.assign s.g_documents doc { pn_doc with doc := d } },
            PN_SUCCESS, some (page.width, page.height))

/-! ## observations used in the statements -/

/-- The element sequence of layer `layerIdx` of page `pageIdx` of the document
registered under `h`, when there is one. -/
def Store.layerElements (s : Store) (h : PN_DOC_HANDLE) (pageIdx layerIdx : Nat) :
    Option (List Element) :=
  match DocMap.find s.g_documents h with
  | none => none
  | some pn_doc =>
    match pn_doc.doc.pages[pageIdx]? with
    | none => none
    | some page =>
      match page.layers[layerIdx]? with
      | none => none
      | some layer => some layer.elements

/-- The session table without the lock bits of `PonyNotesDocument::mutex`: every
handle with its document (pages, layers, elements, file path, document lock). -/
def Store.documents (s : Store) : List (PN_DOC_HANDLE × Document) :=
  s.g_documents.map (fun e => (e.1, e.2.doc))

/-- The pages of the document registered under `h`. -/
def Store.pages (s : Store) (h : PN_DOC_HANDLE) : Option (List XojPage) :=
  (DocMap.find s.g_documents h).map (fun pn_doc => pn_doc.doc.pages)

/-- The stored file path of the document registered under `h`. -/
def Store.filepath (s : Store) (h : PN_DOC_HANDLE) : Option (Option String) :=
  (DocMap.find s.g_documents h).map (fun pn_doc => pn_doc.doc.filepath)

/-- How many times the lock of the document registered under `h` is held. -/
def Store.lockDepth (s : Store) (h : PN_DOC_HANDLE) : Option Nat :=
  (DocMap.find s.g_documents h).map (fun pn_doc => pn_doc.doc.lockDepth)

/-- Whether `PonyNotesDocument::mutex` of the document registered under `h` is held. -/
def Store.mutexHeld (s : Store) (h : PN_DOC_HANDLE) : Option Bool :=
  (DocMap.find s.g_documents h).map (fun pn_doc => pn_doc.mutex)

/-- The tool kinds of the interface, as the header documents the field `tool` of
`PN_STROKE_POINT`: 0 = pen, 1 = eraser, 2 = highlighter, 3 = pencil. -/
def interfaceTool (tool : Int) : Option StrokeTool :=
  if tool = 0 then some StrokeTool.PEN
  else if tool = 1 then some StrokeTool.ERASER
  else if tool = 2 then some StrokeTool.HIGHLIGHTER
  else if tool = 3 then some StrokeTool.PENCIL
  else none

/-- The options of `create` as the specification reads them: a page size, when the
options give one. -/
structure CreateOptions where
  pageSize : Option (Dbl × Dbl)

/-- The page size the `create(options)` of the specification configures: the size
the options give, the standard page size when they give none. -/
def specConfiguredPageSize (o : CreateOptions) : Dbl × Dbl :=
  o.pageSize.getD (A4_WIDTH, A4_HEIGHT)

/-- The scale of the specification: `min(width / page.width, height / page.height)`
when both target dimensions are positive, else `1.0`. -/
def specScale (width height : Int) (pageWidth pageHeight : Dbl) : Dbl :=
  if width > 0 ∧ height > 0 then
    (if Dbl.lt (Dbl.div (Dbl.ofInt width) pageWidth) (Dbl.div (Dbl.ofInt height) pageHeight)
     then Dbl.div (Dbl.ofInt width) pageWidth else Dbl.div (Dbl.ofInt height) pageHeight)
  else Dbl.one

/-- The value `m` is the smaller of `a` and `b`. -/
def Dbl.IsMin (m a b : Dbl) : Prop :=
  Dbl.le m a = true ∧ Dbl.le m b = true ∧ (m = a ∨ m = b)

/-- The store of the example run of the specification after `init` and
`create` with empty options, the new document at address 1. -/
def exampleStore : Store :=
  (pn_xournal_doc_create (pn_xournal_init Store.initial none).1 true none 1).1

/-- The batch of the example run: (0, 0, 0.5), (10, 10, 0.6), (20, 20, 0.4), tool
pen, phases down, move, up. -/
def examplePoints : Nat → PN_STROKE_POINT
  | 0 => { x := Dbl.zero, y := Dbl.zero, pressure := Dbl.ofDecimal 5 10, timestamp := 0,
           tool := 0, phase := 0 }
  | 1 => { x := Dbl.ten, y := Dbl.ten, pressure := Dbl.ofDecimal 6 10, timestamp := 1,
           tool := 0, phase := 1 }
  | _ => { x := Dbl.ofInt 20, y := Dbl.ofInt 20, pressure := Dbl.ofDecimal 4 10, timestamp := 2,
           tool := 0, phase := 2 }

/-- A batch whose points all have tool 3 (pencil in the header) and pressure 0.5. -/
def pencilPoints : Nat → PN_STROKE_POINT :=
  fun _ => { x := Dbl.zero, y := Dbl.zero, pressure := Dbl.ofDecimal 5 10, timestamp := 0,
             tool := 3, phase := 0 }

/-- The document `pn_xournal_doc_create` registers: one A4 page, plain background,
one empty layer, no file path, no lock held. -/
def createdDocument : PonyNotesDocument :=
  { doc := { pages := [{ width := A4_WIDTH, height := A4_HEIGHT,
                         bgType := ⟨PageTypeFormat.Plain⟩, pdfPageNr := 0, layers := [⟨[]⟩] }],
             filepath := none, pdfPageCount := 0, lockDepth := 0 },
    pdfCache := false, mutex := false }

/-- The page of `createdDocument`. -/
def createdPage : XojPage :=
  { width := A4_WIDTH, height := A4_HEIGHT, bgType := ⟨PageTypeFormat.Plain⟩, pdfPageNr := 0,
    layers := [⟨[]⟩] }

/-- The document after an ingestion: `st` appended to layer 0 of page 0. -/
def withStroke (pn : PonyNotesDocument) (page : XojPage) (pages : List XojPage) (layer : Layer)
    (layers : List Layer) (st : Stroke) : PonyNotesDocument :=
  { pn with
    doc := { pn.doc with
      pages := { page with layers := layer.addElement (Element.stroke st) :: layers } :: pages },
    mutex := false }

/-- A raster backend on which every call succeeds. -/
def workingBackend : RasterBackend :=
  { surface_create := fun _ _ => true, create := true, drawPage := Outcome.ok,
    write_to_png := true }

/-! ## the session table: lemmas -/

theorem DocMap.find_assign_self (m : DocMap) (h : PN_DOC_HANDLE) (d : PonyNotesDocument) :
    DocMap.find (DocMap.assign m h d) h = some d := by
  induction m with
  | nil => simp [DocMap.assign, DocMap.find]
  | cons e rest ih =>
    obtain ⟨k, v⟩ := e
    by_cases hk : k = h
    · simp [DocMap.assign, DocMap.find, hk]
    · simp [DocMap.assign, DocMap.find, hk, ih]

theorem DocMap.find_assign_ne (m : DocMap) (h k : PN_DOC_HANDLE) (d : PonyNotesDocument)
    (hne : k ≠ h) : DocMap.find (DocMap.assign m h d) k = DocMap.find m k := by
  have hne2 : ¬ h = k := fun e => hne e.symm
  induction m with
  | nil => simp [DocMap.assign, DocMap.find, hne2]
  | cons e rest ih =>
    obtain ⟨k0, v⟩ := e
    by_cases hk : k0 = h
    · subst hk
      simp [DocMap.assign, DocMap.find, hne2]
    · by_cases hk2 : k0 = k
      · subst hk2
        simp [DocMap.assign, DocMap.find, hk]
      · simp [DocMap.assign, DocMap.find, hk, hk2, ih]

theorem DocMap.find_erase_self (m : DocMap) (h : PN_DOC_HANDLE) :
    DocMap.find (DocMap.erase m h) h = none := by
  induction m with
  | nil => simp [DocMap.erase, DocMap.find]
  | cons e rest ih =>
    obtain ⟨k, v⟩ := e
    by_cases hk : k = h
    · simp [DocMap.erase, hk, ih]
    · simp [DocMap.erase, DocMap.find, hk, ih]

theorem DocMap.find_erase_ne (m : DocMap) (h k : PN_DOC_HANDLE) (hne : k ≠ h) :
    DocMap.find (DocMap.erase m h) k = DocMap.find m k := by
  have hne2 : ¬ h = k := fun e => hne e.symm
  induction m with
  | nil => simp [DocMap.erase, DocMap.find]
  | cons e rest ih =>
    obtain ⟨k0, v⟩ := e
    by_cases hk : k0 = h
    · subst hk
      simp [DocMap.erase, DocMap.find, hne2, ih]
    · by_cases hk2 : k0 = k
      · subst hk2
        simp [DocMap.erase, DocMap.find, hk]
      · simp [DocMap.erase, DocMap.find, hk, hk2, ih]

/-- Writing back a document with the same `doc` leaves `Store.documents` as it was. -/
theorem DocMap.map_assign_same_doc (m : DocMap) (h : PN_DOC_HANDLE)
    (d d' : PonyNotesDocument) (hf : DocMap.find m h = some d) (hd : d'.doc = d.doc) :
    (DocMap.assign m h d').map (fun e => (e.1, e.2.doc)) = m.map (fun e => (e.1, e.2.doc)) := by
  induction m with
  | nil => simp [DocMap.find] at hf
  | cons e rest ih =>
    obtain ⟨k, v⟩ := e
    by_cases hk : k = h
    · simp [DocMap.find, hk] at hf
      simp [DocMap.assign, hk, hd, hf]
    · simp [DocMap.find, hk] at hf
      simp [DocMap.assign, hk, ih hf]

/-! ## binary64 values: lemmas -/

theorem Dbl.ONE_pos : 0 < Dbl.ONE := by decide

/-- The literal `0.1` is the double `0x1.999999999999ap-4`. -/
theorem Dbl.ofDecimal_tenth :
    Dbl.ofDecimal 1 10 = Dbl.fin false (0x1999999999999a <<< (1074 - 56)) := by
  decide!

/-- The literal `595.275591` is the double `5236099472285843 * 2^(-43)` and the
literal `841.889764` is the double `1851335169647185 * 2^(-41)`. -/
theorem A4_values :
    A4_WIDTH = Dbl.fin false (5236099472285843 <<< (1074 - 43)) ∧
    A4_HEIGHT = Dbl.fin false (1851335169647185 <<< (1074 - 41)) := by
  decide!

/-- The quotient `1 / 3` is the double `0x1.5555555555555p-2`, and `2^53 + 1`
rounds to the even neighbour `2^53`. -/
theorem Dbl.rounding_examples :
    Dbl.div (Dbl.ofInt 1) (Dbl.ofInt 3) = Dbl.fin false (0x15555555555555 <<< (1074 - 54)) ∧
    Dbl.ofInt 9007199254740993 = Dbl.ofInt 9007199254740992 ∧
    Dbl.ofInt 9007199254740995 = Dbl.ofInt 9007199254740996 := by
  decide!

theorem Dbl.rne_scale (c n d : Nat) (hc : 0 < c) : Dbl.rne (c * n) (c * d) = Dbl.rne n d := by
  unfold Dbl.rne
  have h1 : 2 * (c * (n % d)) < c * d ↔ 2 * (n % d) < d := by
    rw [show 2 * (c * (n % d)) = c * (2 * (n % d)) by ring]
    exact Nat.mul_lt_mul_left hc
  have h2 : c * d < 2 * (c * (n % d)) ↔ d < 2 * (n % d) := by
    rw [show 2 * (c * (n % d)) = c * (2 * (n % d)) by ring]
    exact Nat.mul_lt_mul_left hc
  simp only [Nat.mul_div_mul_left _ _ hc, Nat.mul_mod_mul_left, h1, h2]

theorem Dbl.round53_scale (c n d : Nat) (hc : 0 < c) :
    Dbl.round53 (c * n) (c * d) = Dbl.round53 n d := by
  unfold Dbl.round53
  have h3 : ∀ t, (c * d) <<< t = c * (d <<< t) := by
    intro t
    simp [Nat.shiftLeft_eq, Nat.mul_assoc]
  simp only [Nat.mul_div_mul_left _ _ hc, Dbl.rne_scale c n d hc, h3, Dbl.rne_scale c n _ hc]

/-- Multiplying a double by 1.0 gives the double back. -/
theorem Dbl.mul_one_of_representable (s : Bool) (k : Nat)
    (hr : Dbl.Representable (Dbl.fin s k)) : Dbl.mul (Dbl.fin s k) Dbl.one = Dbl.fin s k := by
  have h := Dbl.round53_scale Dbl.ONE k 1 Dbl.ONE_pos
  simp only [Dbl.Representable, Dbl.ofRatio] at hr
  simp only [Dbl.mul, Dbl.one, Dbl.ofRatio, Bool.xor_false]
  rw [Nat.mul_comm k Dbl.ONE]
  rw [Nat.mul_one] at h
  rw [h]
  exact hr

theorem Dbl.ofRatio_ne_nan (s : Bool) (n d : Nat) : Dbl.ofRatio s n d ≠ Dbl.nan := by
  unfold Dbl.ofRatio
  simp only
  split <;> simp

/-- A quotient of an integer by a positive finite double is a number. -/
theorem Dbl.div_ofInt_ne_nan (w : Int) (p : Dbl) (hp : p.isPositiveFinite = true) :
    Dbl.div (Dbl.ofInt w) p ≠ Dbl.nan := by
  cases p with
  | nan => simp [Dbl.isPositiveFinite] at hp
  | inf neg => simp [Dbl.isPositiveFinite] at hp
  | fin neg k =>
    cases neg with
    | true => simp [Dbl.isPositiveFinite] at hp
    | false =>
      have hk : k ≠ 0 := by
        simp [Dbl.isPositiveFinite] at hp
        omega
      cases hx : Dbl.ofInt w with
      | nan => exact absurd hx (Dbl.ofRatio_ne_nan _ _ _)
      | inf s => simp [Dbl.div]
      | fin s a =>
        simp only [Dbl.div, hk, if_false]
        exact Dbl.ofRatio_ne_nan _ _ _

theorem Dbl.lt_eq_key (a b : Dbl) (ha : a ≠ Dbl.nan) (hb : b ≠ Dbl.nan) :
    Dbl.lt a b = decide (Dbl.key a < Dbl.key b) := by
  cases a <;> cases b <;> simp_all [Dbl.lt]

theorem Dbl.le_eq_key (a b : Dbl) (ha : a ≠ Dbl.nan) (hb : b ≠ Dbl.nan) :
    Dbl.le a b = decide (Dbl.key a ≤ Dbl.key b) := by
  cases a <;> cases b <;> simp_all [Dbl.le]

/-- The selection `(a < b) ? a : b` of two numbers is their minimum. -/
theorem Dbl.isMin_select (a b : Dbl) (ha : a ≠ Dbl.nan) (hb : b ≠ Dbl.nan) :
    Dbl.IsMin (if Dbl.lt a b = true then a else b) a b := by
  have haa : Dbl.le a a = true := by simp [Dbl.le_eq_key a a ha ha]
  have hbb : Dbl.le b b = true := by simp [Dbl.le_eq_key b b hb hb]
  by_cases h : Dbl.key a < Dbl.key b
  · have hl : Dbl.lt a b = true := by simp [Dbl.lt_eq_key a b ha hb, h]
    have hab : Dbl.le a b = true := by
      simp only [Dbl.le_eq_key a b ha hb, decide_eq_true_eq]
      omega
    rw [if_pos hl]
    exact ⟨haa, hab, Or.inl rfl⟩
  · have hl : ¬ Dbl.lt a b = true := by simp [Dbl.lt_eq_key a b ha hb, h]
    have hba : Dbl.le b a = true := by
      simp only [Dbl.le_eq_key b a hb ha, decide_eq_true_eq]
      omega
    rw [if_neg hl]
    exact ⟨hba, hbb, Or.inr rfl⟩

/-! ## stroke ingestion: lemmas -/

theorem addPoints_points (pts : Nat → PN_STROKE_POINT) (n i : Nat) (st : Stroke) :
    (addPoints pts i n st).points = st.points ++ (List.range' i n).map (fun j => xojPoint (pts j)) := by
  induction n generalizing i st with
  | zero => simp [addPoints]
  | succ n ih => simp [addPoints, ih, Stroke.addPoint, List.range'_succ]

theorem addPoints_toolType (pts : Nat → PN_STROKE_POINT) (n i : Nat) (st : Stroke) :
    (addPoints pts i n st).toolType = st.toolType := by
  induction n generalizing i st with
  | zero => simp [addPoints]
  | succ n ih => simp [addPoints, ih, Stroke.addPoint]

theorem buildStroke_points (pts : Nat → PN_STROKE_POINT) (count : Int) :
    (buildStroke pts count).points = (List.range count.toNat).map (fun j => xojPoint (pts j)) := by
  simp [buildStroke, addPoints_points, Stroke.new, Stroke.setToolType, Stroke.setWidth,
    Stroke.setColor, List.range_eq_range']

theorem buildStroke_toolType (pts : Nat → PN_STROKE_POINT) (count : Int) :
    (buildStroke pts count).toolType = toolType (pts 0).tool := by
  simp [buildStroke, addPoints_toolType, Stroke.new, Stroke.setToolType, Stroke.setWidth,
    Stroke.setColor]

/-- The body on a document with a page 0 that has a layer 0. -/
theorem handle_stroke_body_append (pts : Nat → PN_STROKE_POINT) (count : Int)
    (pn : PonyNotesDocument) (page : XojPage) (pages : List XojPage) (layer : Layer)
    (layers : List Layer) (hp : pn.doc.pages = page :: pages)
    (hl : page.layers = layer :: layers) :
    handle_stroke_body pts count pn =
      ({ pn with doc := { pn.doc with pages :=
          { page with layers :=
            layer.addElement (Element.stroke (buildStroke pts count)) :: layers } :: pages } },
        PN_SUCCESS) := by
  simp [handle_stroke_body, Document.getPageCount, Document.getPage, hp, hl]

/-- The body returns its document untouched unless it succeeds, and succeeds
exactly on a document with a page 0 that has a layer 0. -/
theorem handle_stroke_body_cases (pts : Nat → PN_STROKE_POINT) (count : Int)
    (pn : PonyNotesDocument) :
    (handle_stroke_body pts count pn = (pn, PN_ERROR_INVALID_PARAM)) ∨
    (∃ page pages layer layers, pn.doc.pages = page :: pages ∧ page.layers = layer :: layers) := by
  cases hp : pn.doc.pages with
  | nil => left; simp [handle_stroke_body, Document.getPageCount, hp]
  | cons page pages =>
    cases hl : page.layers with
    | nil => left; simp [handle_stroke_body, Document.getPageCount, Document.getPage, hp, hl]
    | cons layer layers => right; exact ⟨page, pages, layer, layers, rfl, hl⟩

theorem Store.layerElements_of (s : Store) (h : PN_DOC_HANDLE) (pn : PonyNotesDocument)
    (page : XojPage) (pages : List XojPage) (layer : Layer) (layers : List Layer)
    (hf : DocMap.find s.g_documents h = some pn) (hp : pn.doc.pages = page :: pages)
    (hl : page.layers = layer :: layers) :
    s.layerElements h 0 0 = some layer.elements := by
  simp [Store.layerElements, hf, hp, hl]

theorem Store.layerElements_inv (s : Store) (h : PN_DOC_HANDLE) (old : List Element)
    (hold : s.layerElements h 0 0 = some old) :
    ∃ pn page pages layer layers, DocMap.find s.g_documents h = some pn ∧
      pn.doc.pages = page :: pages ∧ page.layers = layer :: layers ∧ layer.elements = old := by
  unfold Store.layerElements at hold
  cases hf : DocMap.find s.g_documents h with
  | none => simp [hf] at hold
  | some pn =>
    cases hp : pn.doc.pages with
    | nil => simp [hf, hp] at hold
    | cons page pages =>
      cases hl : page.layers with
      | nil => simp [hf, hp, hl] at hold
      | cons layer layers =>
        simp [hf, hp, hl] at hold
        exact ⟨pn, page, pages, layer, layers, rfl, hp, hl, hold⟩

/-- A call with a registered handle, page 0, layer 0 and a batch that is not empty:
status and the new element sequence of layer 0 of page 0. -/
theorem handle_stroke_append (s : Store) (h : PN_DOC_HANDLE) (pts : Nat → PN_STROKE_POINT)
    (count : Int) (old : List Element) (hh : h ≠ NULL) (hc : 0 < count)
    (hold : s.layerElements h 0 0 = some old) :
    (pn_xournal_doc_handle_stroke s h (some pts) count).2 = PN_SUCCESS ∧
    (pn_xournal_doc_handle_stroke s h (some pts) count).1.layerElements h 0 0 =
      some (old ++ [Element.stroke (buildStroke pts count)]) := by
  obtain ⟨pn, page, pages, layer, layers, hf, hp, hl, he⟩ := Store.layerElements_inv s h old hold
  have hc2 : ¬ count ≤ 0 := by omega
  have hb := handle_stroke_body_append pts count { pn with mutex := true } page pages layer
    layers hp hl
  simp only [pn_xournal_doc_handle_stroke, hh, hc2, or_self, if_false, hf, lock_guard, hb]
  refine ⟨trivial, ?_⟩
  simp [Store.layerElements, DocMap.find_assign_self, Layer.addElement, he]

/-- A successful call had a batch, a handle that is not null, a count above zero and
a layer 0 on page 0. -/
theorem handle_stroke_success_inv (s : Store) (h : PN_DOC_HANDLE)
    (points : Option (Nat → PN_STROKE_POINT)) (count : Int)
    (hs : (pn_xournal_doc_handle_stroke s h points count).2 = PN_SUCCESS) :
    ∃ pts old, points = some pts ∧ h ≠ NULL ∧ 0 < count ∧ s.layerElements h 0 0 = some old := by
  cases points with
  | none => simp [pn_xournal_doc_handle_stroke, PN_ERROR_INVALID_PARAM, PN_SUCCESS] at hs
  | some pts =>
    by_cases hg : h = NULL ∨ count ≤ 0
    · simp [pn_xournal_doc_handle_stroke, hg, PN_ERROR_INVALID_PARAM, PN_SUCCESS] at hs
    · cases hf : DocMap.find s.g_documents h with
      | none =>
        simp [pn_xournal_doc_handle_stroke, hg, hf, PN_ERROR_INVALID_HANDLE, PN_SUCCESS] at hs
      | some pn =>
        rcases handle_stroke_body_cases pts count { pn with mutex := true } with hb | hb
        · simp [pn_xournal_doc_handle_stroke, hg, hf, lock_guard, hb, PN_ERROR_INVALID_PARAM,
            PN_SUCCESS] at hs
        · obtain ⟨page, pages, layer, layers, hp, hl⟩ := hb
          have hh : h ≠ NULL := fun e => hg (Or.inl e)
          have hc : 0 < count := by
            by_contra hc
            exact hg (Or.inr (by omega))
          exact ⟨pts, layer.elements, rfl, hh, hc,
            Store.layerElements_of s h pn page pages layer layers hf hp hl⟩

theorem Dbl.not_pos_of_le_zero (p : Dbl) (h : Dbl.le p Dbl.zero = true) :
    Dbl.lt Dbl.zero p = false := by
  cases p with
  | nan => simp [Dbl.lt, Dbl.zero]
  | inf neg =>
    cases neg <;> simp_all [Dbl.le, Dbl.lt, Dbl.key, Dbl.zero, Dbl.LIMIT]
  | fin neg k =>
    cases neg <;> simp_all [Dbl.le, Dbl.lt, Dbl.key, Dbl.zero]

theorem Dbl.not_le_one_of_gt_one (p : Dbl) (h : Dbl.lt Dbl.one p = true) :
    Dbl.le p Dbl.one = false := by
  cases p with
  | nan => simp [Dbl.le]
  | inf neg =>
    cases neg <;> simp_all [Dbl.le, Dbl.lt, Dbl.key, Dbl.one]
  | fin neg k =>
    cases neg <;> simp_all [Dbl.le, Dbl.lt, Dbl.key, Dbl.one]

/-- The pressure of the point built from an input point. -/
theorem xojPoint_pressure (pt : PN_STROKE_POINT) :
    (Dbl.lt Dbl.zero pt.pressure = true → Dbl.le pt.pressure Dbl.one = true →
      (xojPoint pt).z = pt.pressure) ∧
    (Dbl.le pt.pressure Dbl.zero = true ∨ Dbl.lt Dbl.one pt.pressure = true →
      (xojPoint pt).z = Point.NO_PRESSURE) := by
  constructor
  · intro h1 h2
    simp [xojPoint, h1, h2]
  · intro h
    rcases h with h | h
    · simp [xojPoint, Dbl.not_pos_of_le_zero _ h]
    · simp [xojPoint, Dbl.not_le_one_of_gt_one _ h]

/-! ## rendering: lemmas -/

theorem renderSize_A4_200_200 : renderSize 200 200 A4_WIDTH A4_HEIGHT = (some 141, some 200) := by
  decide!

/-- A render of an existing page on a backend that succeeds. -/
theorem render_on_page (s : Store) (h : PN_DOC_HANDLE) (pn : PonyNotesDocument)
    (page_index : Int) (page : XojPage) (path : String) (width height : Int)
    (options : Option String) (backend : RasterBackend) (rw rh : Int)
    (hh : h ≠ NULL) (hf : DocMap.find s.g_documents h = some pn) (h0 : 0 ≤ page_index)
    (hlt : page_index < castInt pn.doc.getPageCount)
    (hp : pn.doc.getPage page_index.toNat = some page)
    (hsz : renderSize width height page.width page.height = (some rw, some rh))
    (hb1 : backend.surface_create rw rh = true) (hb2 : backend.create = true)
    (hb3 : backend.drawPage = Outcome.ok) (hb4 : backend.write_to_png = true) :
    pn_xournal_doc_render_page_to_png s h page_index (some path) width height options backend =
      some { store := { s with
               g_documents := DocMap.assign s.g_documents h { pn with mutex := false } },
             status := PN_SUCCESS, surface := some (rw, rh) } := by
  have h1 : ¬ page_index < 0 := by omega
  have h2 : ¬ page_index ≥ castInt pn.doc.getPageCount := by omega
  have hp2 : ({ pn with mutex := true } : PonyNotesDocument).doc.getPage page_index.toNat
      = some page := hp
  have h3 : ¬ page_index ≥ castInt ({ pn with mutex := true } : PonyNotesDocument).doc.getPageCount :=
    h2
  simp only [pn_xournal_doc_render_page_to_png, hh, h1, Option.isNone_some, or_self, if_false,
    hf, lock_guard, render_body, h3, hp2, hsz, hb1, hb2, hb3, hb4, Bool.not_true]
  simp

/-- The surface a render asks the backend for has the size `renderSize` computes from
the page at `page_index`. -/
theorem render_surface_eq_renderSize (s : Store) (h : PN_DOC_HANDLE) (pn : PonyNotesDocument)
    (page_index : Int) (page : XojPage) (png_path : Option String) (width height : Int)
    (options : Option String) (backend : RasterBackend) (r : RenderResult) (sz : Int × Int)
    (hf : DocMap.find s.g_documents h = some pn)
    (hp : pn.doc.getPage page_index.toNat = some page)
    (hr : pn_xournal_doc_render_page_to_png s h page_index png_path width height options backend
      = some r)
    (hsz : r.surface = some sz) :
    renderSize width height page.width page.height = (some sz.1, some sz.2) := by
  unfold pn_xournal_doc_render_page_to_png at hr
  split at hr
  · simp only [Option.some.injEq] at hr
    subst hr
    simp at hsz
  · have hp2 : ({ pn with mutex := true } : PonyNotesDocument).doc.getPage page_index.toNat
        = some page := hp
    simp only [hf, lock_guard, render_body, hp2] at hr
    split at hr
    · simp at hr
    · rename_i status surface heq
      simp only [Option.some.injEq] at hr
      subst hr
      simp only at hsz
      subst hsz
      split at heq
      · simp at heq
      · split at heq
        · rename_i rw rh hrs
          rw [hrs]
          have : sz = (rw, rh) := by
            repeat' split at heq
            all_goals simp at heq
            all_goals exact heq.2.symm
          rw [this]
        · simp at heq

/-! ## the results of create and of an ingestion -/

/-- The whole result of an ingestion into a document with a page 0 that has a
layer 0. -/
theorem handle_stroke_eq (s : Store) (h : PN_DOC_HANDLE) (pts : Nat → PN_STROKE_POINT)
    (count : Int) (pn : PonyNotesDocument) (page : XojPage) (pages : List XojPage)
    (layer : Layer) (layers : List Layer) (hh : h ≠ NULL) (hc : 0 < count)
    (hf : DocMap.find s.g_documents h = some pn) (hp : pn.doc.pages = page :: pages)
    (hl : page.layers = layer :: layers) :
    pn_xournal_doc_handle_stroke s h (some pts) count =
      ({ s with g_documents := (DocMap.assign s.g_documents h
          (withStroke pn page pages layer layers (buildStroke pts count))) },
        PN_SUCCESS) := by
  have hc2 : ¬ count ≤ 0 := by omega
  have hb := handle_stroke_body_append pts count { pn with mutex := true } page pages layer
    layers hp hl
  simp only [pn_xournal_doc_handle_stroke, hh, hc2, or_self, if_false, hf, lock_guard, hb,
    withStroke]

/-- The result of `pn_xournal_doc_create` on an initialized store. -/
theorem create_eq (s : Store) (options_json : Option String) (addr : PN_DOC_HANDLE)
    (hi : s.g_initialized = true) :
    pn_xournal_doc_create s true options_json addr =
      ({ s with g_documents := (DocMap.assign s.g_documents addr createdDocument) },
        PN_SUCCESS, some addr) := by
  simp [pn_xournal_doc_create, hi, PonyNotesDocument.new, Document.new, Document.lock,
    Document.unlock, Document.addPage, XojPage.new, XojPage.setBackgroundType, createdDocument]

/-! ## the document locks on return: the paths that release -/

/-- A save whose write throws leaves the document lock held once more than before. -/
theorem save_fault_lockDepth (s : Store) (h : PN_DOC_HANDLE) (path : String)
    (pn : PonyNotesDocument) (hh : h ≠ NULL) (hf : DocMap.find s.g_documents h = some pn) :
    (pn_xournal_doc_save s h (some path) Outcome.fault).1.lockDepth h
      = some (pn.doc.lockDepth + 1) := by
  simp [pn_xournal_doc_save, hh, hf, Store.lockDepth, DocMap.find_assign_self, Document.lock,
    Document.setFilepath]

/-- On a registered handle, a save whose write succeeds, get_page_count,
get_page_size, handle_stroke and render_page_to_png return with the document lock
held as often as before, and with `mutex` free when it was free before. -/
theorem locks_released_on_return (s : Store) (h : PN_DOC_HANDLE) (pn : PonyNotesDocument)
    (hh : h ≠ NULL) (hf : DocMap.find s.g_documents h = some pn) (hm : pn.mutex = false) :
    (∀ path : String,
      (pn_xournal_doc_save s h (some path) Outcome.ok).1.lockDepth h = some pn.doc.lockDepth ∧
      (pn_xournal_doc_save s h (some path) Outcome.ok).1.mutexHeld h = some false) ∧
    ((pn_xournal_doc_get_page_count s h true).1.lockDepth h = some pn.doc.lockDepth ∧
      (pn_xournal_doc_get_page_count s h true).1.mutexHeld h = some false) ∧
    (∀ (page_index : Int) (r : Store × Int × Option (Dbl × Dbl)),
      pn_xournal_doc_get_page_size s h page_index true true = some r →
      r.1.lockDepth h = some pn.doc.lockDepth ∧ r.1.mutexHeld h = some false) ∧
    (∀ (points : Option (Nat → PN_STROKE_POINT)) (count : Int),
      (pn_xournal_doc_handle_stroke s h points count).1.lockDepth h = some pn.doc.lockDepth ∧
      (pn_xournal_doc_handle_stroke s h points count).1.mutexHeld h = some false) ∧
    (∀ (page_index : Int) (png_path : Option String) (width height : Int)
      (options : Option String) (backend : RasterBackend) (r : RenderResult),
      pn_xournal_doc_render_page_to_png s h page_index png_path width height options backend
        = some r →
      r.store.lockDepth h = some pn.doc.lockDepth ∧ r.store.mutexHeld h = some false) := by
  have hs0 : s.lockDepth h = some pn.doc.lockDepth := by simp [Store.lockDepth, hf]
  have hs1 : s.mutexHeld h = some false := by simp [Store.mutexHeld, hf, hm]
  refine ⟨?_, ?_, ?_, ?_, ?_⟩
  · intro path
    simp [pn_xournal_doc_save, hh, hf, Store.lockDepth, Store.mutexHeld, DocMap.find_assign_self,
      Document.lock, Document.unlock, Document.setFilepath, hm]
  · simp [pn_xournal_doc_get_page_count, hh, hf, Store.lockDepth, Store.mutexHeld,
      DocMap.find_assign_self, Document.lock, Document.unlock, hm]
  · intro page_index r hr
    by_cases h0 : page_index < 0
    · simp only [pn_xournal_doc_get_page_size, hh, h0, Bool.not_true, Bool.false_eq_true,
        or_true, if_true, Option.some.injEq] at hr
      subst hr
      exact ⟨hs0, hs1⟩
    · simp only [pn_xournal_doc_get_page_size, hh, h0, Bool.not_true, Bool.false_eq_true,
        or_self, if_false, hf] at hr
      split at hr
      · simp only [Option.some.injEq] at hr
        subst hr
        simp [Store.lockDepth, Store.mutexHeld, DocMap.find_assign_self, Document.lock,
          Document.unlock, hm]
      · split at hr
        · simp at hr
        · simp only [Option.some.injEq] at hr
          subst hr
          simp [Store.lockDepth, Store.mutexHeld, DocMap.find_assign_self, Document.lock,
            Document.unlock, hm]
  · intro points count
    cases points with
    | none => exact ⟨hs0, hs1⟩
    | some pts =>
      by_cases hg : h = NULL ∨ count ≤ 0
      · simp only [pn_xournal_doc_handle_stroke, hg, if_true]
        exact ⟨hs0, hs1⟩
      · rcases handle_stroke_body_cases pts count { pn with mutex := true } with hb | hb
        · simp [pn_xournal_doc_handle_stroke, hg, hf, lock_guard, hb, Store.lockDepth,
            Store.mutexHeld, DocMap.find_assign_self]
        · obtain ⟨page, pages, layer, layers, hp, hl⟩ := hb
          have hb2 := handle_stroke_body_append pts count { pn with mutex := true } page pages
            layer layers hp hl
          simp [pn_xournal_doc_handle_stroke, hg, hf, lock_guard, hb2, Store.lockDepth,
            Store.mutexHeld, DocMap.find_assign_self]
  · intro page_index png_path width height options backend r hr
    by_cases hg : h = NULL ∨ png_path.isNone = true ∨ page_index < 0
    · simp only [pn_xournal_doc_render_page_to_png, hg, if_true, Option.some.injEq] at hr
      subst hr
      exact ⟨hs0, hs1⟩
    · simp only [pn_xournal_doc_render_page_to_png, hg, if_false, hf, lock_guard] at hr
      split at hr
      · simp at hr
      · simp only [Option.some.injEq] at hr
        subst hr
        simp [Store.lockDepth, Store.mutexHeld, DocMap.find_assign_self]

/-- A document that `pn_xournal_doc_create` or `pn_xournal_doc_open_pdf` registers has
both locks free, whatever the constructor of `PdfCache` does. -/
theorem new_document_locks_free (s : Store) (options_json pdf_path : Option String)
    (attach : Int) (readPdf : ReadPdfResult) (pdfCacheCtor : Outcome) (addr : PN_DOC_HANDLE) :
    ((pn_xournal_doc_create s true options_json addr).2.1 = PN_SUCCESS →
      (pn_xournal_doc_create s true options_json addr).1.lockDepth addr = some 0 ∧
      (pn_xournal_doc_create s true options_json addr).1.mutexHeld addr = some false) ∧
    ((pn_xournal_doc_open_pdf s true pdf_path attach readPdf pdfCacheCtor addr).2.1 = PN_SUCCESS →
      (pn_xournal_doc_open_pdf s true pdf_path attach readPdf pdfCacheCtor addr).1.lockDepth addr
        = some 0 ∧
      (pn_xournal_doc_open_pdf s true pdf_path attach readPdf pdfCacheCtor addr).1.mutexHeld addr
        = some false) := by
  constructor
  · intro hs
    by_cases hi : s.g_initialized = true
    · rw [create_eq s options_json addr hi]
      simp [Store.lockDepth, Store.mutexHeld, DocMap.find_assign_self, createdDocument]
    · simp [pn_xournal_doc_create, hi, PN_ERROR_UNKNOWN, PN_SUCCESS] at hs
  · intro hs
    unfold pn_xournal_doc_open_pdf at hs ⊢
    by_cases hg : (!s.g_initialized || !true || pdf_path.isNone) = true
    · rw [if_pos hg] at hs
      simp [PN_ERROR_INVALID_PARAM, PN_SUCCESS] at hs
    · rw [if_neg hg] at hs ⊢
      cases readPdf with
      | fault => simp [PN_ERROR_UNKNOWN, PN_SUCCESS] at hs
      | failed msg =>
        by_cases he : msg.isEmpty = true
        · simp [he, PN_ERROR_FILE_NOT_FOUND, PN_SUCCESS] at hs
        · simp [he, PN_ERROR_IO_ERROR, PN_SUCCESS] at hs
      | success pages n =>
        simp [Store.lockDepth, Store.mutexHeld, DocMap.find_assign_self, PonyNotesDocument.new,
          Document.new, Document.lock, Document.unlock]

/-! ## C1: a pen batch appends one stroke -/

/-- C1: on every store, for a handle that is not null and is registered with a
document that has a page 0 with a layer 0 (element sequence `old`), and a batch of
`n >= 1` points whose first point has tool 0 (pen), `pn_xournal_doc_handle_stroke`
returns `PN_SUCCESS`; layer 0 of page 0 then holds `old` followed by one new stroke
(one element more), the stroke has tool pen and exactly `n` points, and their
`(x, y)` are those of the input points in input order. -/
theorem C1_handle_stroke_appends_one_stroke (s : Store) (h : PN_DOC_HANDLE)
    (pts : Nat → PN_STROKE_POINT) (n : Nat) (old : List Element)
    (hh : h ≠ NULL) (hold : s.layerElements h 0 0 = some old) (hn : 1 ≤ n)
    (hpen : (pts 0).tool = 0) :
    (pn_xournal_doc_handle_stroke s h (some pts) n).2 = PN_SUCCESS ∧
    ∃ st : Stroke,
      (pn_xournal_doc_handle_stroke s h (some pts) n).1.layerElements h 0 0 =
        some (old ++ [Element.stroke st]) ∧
      (old ++ [Element.stroke st]).length = old.length + 1 ∧
      st.toolType = StrokeTool.PEN ∧
      st.points.length = n ∧
      st.points.map (fun p => (p.x, p.y)) = (List.range n).map (fun i => ((pts i).x, (pts i).y)) := by
  have hc : (0 : Int) < (n : Int) := by omega
  obtain ⟨h1, h2⟩ := handle_stroke_append s h pts n old hh hc hold
  refine ⟨h1, buildStroke pts n, h2, by simp, ?_, ?_, ?_⟩
  · simp [buildStroke_toolType, hpen, toolType]
  · simp [buildStroke_points]
  · simp [buildStroke_points, xojPoint]

/-- C1 at the example run: the store after `init` and `create`, the three-point pen
batch. -/
theorem C1_handle_stroke_appends_one_stroke_witness :
    (1 : PN_DOC_HANDLE) ≠ NULL ∧ exampleStore.layerElements 1 0 0 = some [] ∧
    (pn_xournal_doc_handle_stroke exampleStore 1 (some examplePoints) (3 : Nat)).2 = PN_SUCCESS ∧
    ∃ st : Stroke,
      (pn_xournal_doc_handle_stroke exampleStore 1 (some examplePoints) (3 : Nat)).1.layerElements
        1 0 0 = some ([] ++ [Element.stroke st]) ∧
      ([] ++ [Element.stroke st]).length = ([] : List Element).length + 1 ∧
      st.toolType = StrokeTool.PEN ∧
      st.points.length = 3 ∧
      st.points.map (fun p => (p.x, p.y)) =
        (List.range 3).map (fun i => ((examplePoints i).x, (examplePoints i).y)) :=
  ⟨by decide, by decide,
    C1_handle_stroke_appends_one_stroke exampleStore 1 examplePoints 3 [] (by decide)
      (by decide) (by decide) (by decide)⟩

/-! ## C2: close invalidates the handle -/

/-- C2: when `h` (not null) is registered, `pn_xournal_doc_close` returns
`PN_SUCCESS` and removes `h` from the session table; in the resulting store save,
handle_stroke, render_page_to_png, get_page_count, get_page_size and close, called
on `h` with otherwise valid arguments, all return `PN_ERROR_INVALID_HANDLE`; so a
second close fails with `PN_ERROR_INVALID_HANDLE`. -/
theorem C2_close_invalidates_handle (s : Store) (h : PN_DOC_HANDLE) (pn : PonyNotesDocument)
    (hh : h ≠ NULL) (hreg : DocMap.find s.g_documents h = some pn) :
    (pn_xournal_doc_close s h).2 = PN_SUCCESS ∧
    DocMap.find (pn_xournal_doc_close s h).1.g_documents h = none ∧
    (∀ (path : String) (saver : Outcome),
      (pn_xournal_doc_save (pn_xournal_doc_close s h).1 h (some path) saver).2
        = PN_ERROR_INVALID_HANDLE) ∧
    (∀ (pts : Nat → PN_STROKE_POINT) (count : Int), 0 < count →
      (pn_xournal_doc_handle_stroke (pn_xournal_doc_close s h).1 h (some pts) count).2
        = PN_ERROR_INVALID_HANDLE) ∧
    (∀ (page_index : Int) (path : String) (width height : Int) (options : Option String)
      (backend : RasterBackend), 0 ≤ page_index →
      (pn_xournal_doc_render_page_to_png (pn_xournal_doc_close s h).1 h page_index (some path)
        width height options backend).map (fun r => r.status) = some PN_ERROR_INVALID_HANDLE) ∧
    (pn_xournal_doc_get_page_count (pn_xournal_doc_close s h).1 h true).2.1
      = PN_ERROR_INVALID_HANDLE ∧
    (∀ (page_index : Int), 0 ≤ page_index →
      (pn_xournal_doc_get_page_size (pn_xournal_doc_close s h).1 h page_index true true).map
        (fun r => r.2.1) = some PN_ERROR_INVALID_HANDLE) ∧
    (pn_xournal_doc_close (pn_xournal_doc_close s h).1 h).2 = PN_ERROR_INVALID_HANDLE := by
  have hc : pn_xournal_doc_close s h
      = ({ s with g_documents := DocMap.erase s.g_documents h }, PN_SUCCESS) := by
    simp [pn_xournal_doc_close, hh, hreg]
  have hf : DocMap.find (DocMap.erase s.g_documents h) h = none := DocMap.find_erase_self _ _
  rw [hc]
  refine ⟨rfl, hf, ?_, ?_, ?_, ?_, ?_, ?_⟩
  · intro path saver
    simp [pn_xournal_doc_save, hh, hf]
  · intro pts count hcount
    have : ¬ count ≤ 0 := by omega
    simp [pn_xournal_doc_handle_stroke, hh, this, hf]
  · intro page_index path width height options backend hp
    have : ¬ page_index < 0 := by omega
    simp [pn_xournal_doc_render_page_to_png, hh, this, hf]
  · simp [pn_xournal_doc_get_page_count, hh, hf]
  · intro page_index hp
    have : ¬ page_index < 0 := by omega
    simp [pn_xournal_doc_get_page_size, hh, this, hf]
  · simp [pn_xournal_doc_close, hh, hf]

/-- C2 at the store of the example run, handle 1. -/
theorem C2_close_invalidates_handle_witness :
    (1 : PN_DOC_HANDLE) ≠ NULL ∧
    (DocMap.find exampleStore.g_documents 1).isSome = true ∧
    (pn_xournal_doc_close exampleStore 1).2 = PN_SUCCESS ∧
    (pn_xournal_doc_close (pn_xournal_doc_close exampleStore 1).1 1).2
      = PN_ERROR_INVALID_HANDLE :=
  ⟨by decide, by decide,
    (C2_close_invalidates_handle exampleStore 1
      ((DocMap.find exampleStore.g_documents 1).get (by decide)) (by decide) (by simp)).1,
    (C2_close_invalidates_handle exampleStore 1
      ((DocMap.find exampleStore.g_documents 1).get (by decide)) (by decide)
      (by simp)).2.2.2.2.2.2.2⟩

/-! ## C3: the scale of a render -/

/-- C3, the claim at width 200 and height 0 on the A4 page of a new document: the
scale is not 1.0, and the surface is 200 x 282, not the native 595 x 841. -/
theorem C3_counterexample :
    Dbl.isPositiveFinite A4_WIDTH = true ∧ Dbl.isPositiveFinite A4_HEIGHT = true ∧
    ¬ ((200 : Int) > 0 ∧ (0 : Int) > 0) ∧
    renderScale 200 0 A4_WIDTH A4_HEIGHT ≠ specScale 200 0 A4_WIDTH A4_HEIGHT ∧
    renderScale 200 0 A4_WIDTH A4_HEIGHT ≠ Dbl.one ∧
    (pn_xournal_doc_render_page_to_png exampleStore 1 0 (some "out.png") 200 0 none
      workingBackend).map (fun r => (r.status, r.surface))
      = some (PN_SUCCESS, some (200, 282)) ∧
    renderSize 0 0 A4_WIDTH A4_HEIGHT = (some 595, some 841) := by
  decide!

/-- C3 as the code has it: for a page of positive finite width `pw` and height `ph`,
each axis has its own scale, `target / extent` when the target is positive and 1.0
otherwise, and the scale of the render is the smaller of the two. So it is
`min(width / pw, height / ph)` when both targets are positive, 1.0 when neither is,
and `min(target / extent, 1.0)` of the positive axis when exactly one is. The
surface `pn_xournal_doc_render_page_to_png` asks for is `(int)(pw * scale)` by
`(int)(ph * scale)`, which for `width <= 0` and `height <= 0` are the native
dimensions `(int)pw` by `(int)ph`. -/
theorem C3_render_scale_per_axis (width height : Int) (pw ph : Dbl)
    (hw : pw.isPositiveFinite = true) (hh : ph.isPositiveFinite = true) :
    (0 < width → 0 < height →
      Dbl.IsMin (renderScale width height pw ph)
        (Dbl.div (Dbl.ofInt width) pw) (Dbl.div (Dbl.ofInt height) ph)) ∧
    (0 < width → height ≤ 0 →
      Dbl.IsMin (renderScale width height pw ph) (Dbl.div (Dbl.ofInt width) pw) Dbl.one) ∧
    (width ≤ 0 → 0 < height →
      Dbl.IsMin (renderScale width height pw ph) Dbl.one (Dbl.div (Dbl.ofInt height) ph)) ∧
    (width ≤ 0 → height ≤ 0 → renderScale width height pw ph = Dbl.one) ∧
    (∀ (s : Store) (h : PN_DOC_HANDLE) (pn : PonyNotesDocument) (page_index : Int)
      (page : XojPage) (png_path options : Option String) (backend : RasterBackend)
      (r : RenderResult) (sz : Int × Int),
      DocMap.find s.g_documents h = some pn → pn.doc.getPage page_index.toNat = some page →
      page.width = pw → page.height = ph →
      pn_xournal_doc_render_page_to_png s h page_index png_path width height options backend
        = some r →
      r.surface = some sz →
      (Dbl.mul pw (renderScale width height pw ph)).toInt = some sz.1 ∧
      (Dbl.mul ph (renderScale width height pw ph)).toInt = some sz.2) ∧
    (width ≤ 0 → height ≤ 0 → pw.Representable → ph.Representable →
      renderSize width height pw ph = (pw.toInt, ph.toInt)) := by
  have h1 : Dbl.one ≠ Dbl.nan := by simp [Dbl.one]
  refine ⟨?_, ?_, ?_, ?_, ?_, ?_⟩
  · intro h1w h1h
    have a : width > 0 := h1w
    have b : height > 0 := h1h
    simp only [renderScale, axisScale, a, b, if_true]
    exact Dbl.isMin_select _ _ (Dbl.div_ofInt_ne_nan width pw hw) (Dbl.div_ofInt_ne_nan height ph hh)
  · intro h1w h1h
    have a : width > 0 := h1w
    have b : ¬ height > 0 := by omega
    simp only [renderScale, axisScale, a, b, if_true, if_false]
    exact Dbl.isMin_select _ _ (Dbl.div_ofInt_ne_nan width pw hw) h1
  · intro h1w h1h
    have a : ¬ width > 0 := by omega
    have b : height > 0 := h1h
    simp only [renderScale, axisScale, a, b, if_true, if_false]
    exact Dbl.isMin_select _ _ h1 (Dbl.div_ofInt_ne_nan height ph hh)
  · intro h1w h1h
    have a : ¬ width > 0 := by omega
    have b : ¬ height > 0 := by omega
    simp [renderScale, axisScale, a, b]
  · intro s h pn page_index page png_path options backend r sz hf hp hpw hph hr hsz
    have hrs := render_surface_eq_renderSize s h pn page_index page png_path width height
      options backend r sz hf hp hr hsz
    rw [hpw, hph] at hrs
    simp only [renderSize, Prod.mk.injEq] at hrs
    exact hrs
  · intro h1w h1h rw rh
    have a : ¬ width > 0 := by omega
    have b : ¬ height > 0 := by omega
    have hs : renderScale width height pw ph = Dbl.one := by simp [renderScale, axisScale, a, b]
    cases pw with
    | nan => simp [Dbl.isPositiveFinite] at hw
    | inf neg => simp [Dbl.isPositiveFinite] at hw
    | fin s k =>
      cases ph with
      | nan => simp [Dbl.isPositiveFinite] at hh
      | inf neg => simp [Dbl.isPositiveFinite] at hh
      | fin t j =>
        simp only [renderSize, hs, Dbl.mul_one_of_representable s k rw,
          Dbl.mul_one_of_representable t j rh]

/-- C3 on the A4 page at width 200 and height 0. -/
theorem C3_render_scale_per_axis_witness :
    Dbl.isPositiveFinite A4_WIDTH = true ∧ Dbl.isPositiveFinite A4_HEIGHT = true ∧
    Dbl.IsMin (renderScale 200 0 A4_WIDTH A4_HEIGHT) (Dbl.div (Dbl.ofInt 200) A4_WIDTH) Dbl.one ∧
    renderSize 0 0 A4_WIDTH A4_HEIGHT = (A4_WIDTH.toInt, A4_HEIGHT.toInt) :=
  ⟨by decide!, by decide!,
    (C3_render_scale_per_axis 200 0 A4_WIDTH A4_HEIGHT (by decide!) (by decide!)).2.1
      (by decide) (by decide),
    (C3_render_scale_per_axis 0 0 A4_WIDTH A4_HEIGHT (by decide!) (by decide!)).2.2.2.2.2
      (by decide) (by decide) (by decide!) (by decide!)⟩

/-! ## C4: the page of a new document -/

theorem A4_WIDTH_ne_100 : A4_WIDTH ≠ Dbl.ofInt 100 := by decide!

/-- C4, the claim for options that give the page size 100 x 100: however these
options are written as `options_json`, the page of the new document is not of that
size. -/
theorem C4_counterexample :
    ∃ o : CreateOptions, o.pageSize = some (Dbl.ofInt 100, Dbl.ofInt 100) ∧
      ∀ options_json : Option String,
        ((pn_xournal_doc_create (pn_xournal_init Store.initial none).1 true options_json 1).1.pages
          1).map (fun ps => ps.map (fun p => (p.width, p.height)))
          ≠ some [specConfiguredPageSize o] := by
  refine ⟨⟨some (Dbl.ofInt 100, Dbl.ofInt 100)⟩, rfl, ?_⟩
  intro options_json
  rw [create_eq _ options_json 1 rfl]
  simp only [Store.pages, DocMap.find_assign_self, createdDocument, specConfiguredPageSize,
    Option.map_some', List.map, Option.getD_some, ne_eq, Option.some.injEq, List.cons.injEq,
    Prod.mk.injEq, and_true]
  intro hc
  exact A4_WIDTH_ne_100 hc.1

/-- C4 as the code has it: on an initialized store, for every `options_json` (the
function does not read it), `pn_xournal_doc_create` with an out pointer that is not
null returns `PN_SUCCESS` and registers the new handle with a document of exactly
one page, of the A4 size 595.275591 x 841.889764 and with a plain background;
`pn_xournal_doc_get_page_count` then gives 1 and `pn_xournal_doc_get_page_size` of
page 0 gives the A4 size. -/
theorem C4_create_one_A4_page (s : Store) (options_json : Option String) (addr : PN_DOC_HANDLE)
    (hi : s.g_initialized = true) (ha : addr ≠ NULL) :
    (pn_xournal_doc_create s true options_json addr).2 = (PN_SUCCESS, some addr) ∧
    (∃ page : XojPage,
      (pn_xournal_doc_create s true options_json addr).1.pages addr = some [page] ∧
      page.width = A4_WIDTH ∧ page.height = A4_HEIGHT ∧
      page.bgType.format = PageTypeFormat.Plain) ∧
    (pn_xournal_doc_get_page_count (pn_xournal_doc_create s true options_json addr).1 addr
      true).2 = (PN_SUCCESS, some 1) ∧
    (pn_xournal_doc_get_page_size (pn_xournal_doc_create s true options_json addr).1 addr 0
      true true).map (fun r => r.2) = some (PN_SUCCESS, some (A4_WIDTH, A4_HEIGHT)) := by
  rw [create_eq s options_json addr hi]
  refine ⟨rfl, ⟨createdPage, ?_, rfl, rfl, rfl⟩, ?_, ?_⟩
  · simp [Store.pages, DocMap.find_assign_self, createdDocument, createdPage]
  · simp only [pn_xournal_doc_get_page_count, ha, DocMap.find_assign_self, Bool.not_true,
      Bool.false_eq_true, or_self, if_false]
    rfl
  · have h1 : ¬ (0 : Int) ≥ castInt createdDocument.doc.lock.getPageCount := by decide
    have h2 : createdDocument.doc.lock.getPage (0 : Int).toNat = some createdPage := rfl
    simp only [pn_xournal_doc_get_page_size, ha, DocMap.find_assign_self, Bool.not_true,
      Bool.false_eq_true, lt_self_iff_false, or_self, if_false, h1, h2, Option.map_some',
      createdPage]

/-- C4 at the store after `init`, address 1, empty options. -/
theorem C4_create_one_A4_page_witness :
    (pn_xournal_init Store.initial none).1.g_initialized = true ∧ (1 : PN_DOC_HANDLE) ≠ NULL ∧
    (pn_xournal_doc_get_page_count
      (pn_xournal_doc_create (pn_xournal_init Store.initial none).1 true none 1).1 1 true).2
      = (PN_SUCCESS, some 1) :=
  ⟨rfl, by decide,
    (C4_create_one_A4_page (pn_xournal_init Store.initial none).1 none 1 rfl (by decide)).2.2.1⟩

/-! ## C5: pressure of the stored points -/

/-- C5: after a successful `pn_xournal_doc_handle_stroke` the stroke appended to
layer 0 of page 0 holds, at every index `i` of the batch, a point whose pressure is
the input pressure when that lies in (0, 1], and `Point::NO_PRESSURE` when the input
pressure is `<= 0` or `> 1`. -/
theorem C5_pressure_normalized (s : Store) (h : PN_DOC_HANDLE)
    (points : Option (Nat → PN_STROKE_POINT)) (count : Int)
    (hs : (pn_xournal_doc_handle_stroke s h points count).2 = PN_SUCCESS) :
    ∃ (pts : Nat → PN_STROKE_POINT) (old : List Element) (st : Stroke),
      points = some pts ∧
      s.layerElements h 0 0 = some old ∧
      (pn_xournal_doc_handle_stroke s h points count).1.layerElements h 0 0 =
        some (old ++ [Element.stroke st]) ∧
      ∀ i : Nat, (i : Int) < count →
        ∃ p : Point, st.points[i]? = some p ∧
          (Dbl.lt Dbl.zero (pts i).pressure = true → Dbl.le (pts i).pressure Dbl.one = true →
            p.z = (pts i).pressure) ∧
          (Dbl.le (pts i).pressure Dbl.zero = true ∨ Dbl.lt Dbl.one (pts i).pressure = true →
            p.z = Point.NO_PRESSURE) := by
  obtain ⟨pts, old, hpts, hh, hc, hold⟩ := handle_stroke_success_inv s h points count hs
  subst hpts
  obtain ⟨_, h2⟩ := handle_stroke_append s h pts count old hh hc hold
  refine ⟨pts, old, buildStroke pts count, rfl, hold, h2, ?_⟩
  intro i hi
  have hi2 : i < count.toNat := by omega
  refine ⟨xojPoint (pts i), ?_, xojPoint_pressure (pts i)⟩
  simp [buildStroke_points, List.getElem?_map, List.getElem?_range hi2]

/-- C5 at the example run. -/
theorem C5_pressure_normalized_witness :
    (pn_xournal_doc_handle_stroke exampleStore 1 (some examplePoints) 3).2 = PN_SUCCESS ∧
    ∃ (pts : Nat → PN_STROKE_POINT) (old : List Element) (st : Stroke),
      some examplePoints = some pts ∧
      exampleStore.layerElements 1 0 0 = some old ∧
      (pn_xournal_doc_handle_stroke exampleStore 1 (some examplePoints) 3).1.layerElements 1 0 0 =
        some (old ++ [Element.stroke st]) ∧
      ∀ i : Nat, (i : Int) < 3 →
        ∃ p : Point, st.points[i]? = some p ∧
          (Dbl.lt Dbl.zero (pts i).pressure = true → Dbl.le (pts i).pressure Dbl.one = true →
            p.z = (pts i).pressure) ∧
          (Dbl.le (pts i).pressure Dbl.zero = true ∨ Dbl.lt Dbl.one (pts i).pressure = true →
            p.z = Point.NO_PRESSURE) :=
  ⟨by decide, C5_pressure_normalized exampleStore 1 (some examplePoints) 3 (by decide)⟩

/-! ## C6: the tool of the stored stroke -/

/-- C6: after a successful `pn_xournal_doc_handle_stroke` the tool of the appended
stroke is decided by the first point alone: it is the tool kind of the interface
for `tool` 0 (pen), 1 (eraser) and 2 (highlighter), but for `tool` 3, which the
header documents as pencil, the stroke is stored as a pen stroke. -/
theorem C6_pencil_stored_as_pen (s : Store) (h : PN_DOC_HANDLE)
    (points : Option (Nat → PN_STROKE_POINT)) (count : Int)
    (hs : (pn_xournal_doc_handle_stroke s h points count).2 = PN_SUCCESS) :
    ∃ (pts : Nat → PN_STROKE_POINT) (old : List Element) (st : Stroke),
      points = some pts ∧
      (pn_xournal_doc_handle_stroke s h points count).1.layerElements h 0 0 =
        some (old ++ [Element.stroke st]) ∧
      st.toolType = toolType (pts 0).tool ∧
      ((pts 0).tool = 0 ∨ (pts 0).tool = 1 ∨ (pts 0).tool = 2 →
        interfaceTool (pts 0).tool = some st.toolType) ∧
      ((pts 0).tool = 3 →
        interfaceTool (pts 0).tool = some StrokeTool.PENCIL ∧ st.toolType = StrokeTool.PEN) := by
  obtain ⟨pts, old, hpts, hh, hc, hold⟩ := handle_stroke_success_inv s h points count hs
  subst hpts
  obtain ⟨_, h2⟩ := handle_stroke_append s h pts count old hh hc hold
  refine ⟨pts, old, buildStroke pts count, rfl, h2, buildStroke_toolType pts count, ?_, ?_⟩
  · intro ht
    rcases ht with ht | ht | ht <;> simp [buildStroke_toolType, ht, toolType, interfaceTool]
  · intro ht
    simp [buildStroke_toolType, ht, toolType, interfaceTool]

/-- C6 at a pencil batch on the store of the example run: the stored stroke is a pen
stroke. -/
theorem C6_pencil_stored_as_pen_witness :
    (pn_xournal_doc_handle_stroke exampleStore 1 (some pencilPoints) 1).2 = PN_SUCCESS ∧
    (pencilPoints 0).tool = 3 ∧
    (pn_xournal_doc_handle_stroke exampleStore 1 (some pencilPoints) 1).1.layerElements 1 0 0 =
      some [Element.stroke
        { toolType := StrokeTool.PEN, width := Dbl.two, color := Colors.black,
          points := [{ x := Dbl.zero, y := Dbl.zero, z := Dbl.ofDecimal 5 10 }] }] ∧
    ∃ (pts : Nat → PN_STROKE_POINT) (old : List Element) (st : Stroke),
      some pencilPoints = some pts ∧
      (pn_xournal_doc_handle_stroke exampleStore 1 (some pencilPoints) 1).1.layerElements 1 0 0 =
        some (old ++ [Element.stroke st]) ∧
      st.toolType = toolType (pts 0).tool ∧
      ((pts 0).tool = 0 ∨ (pts 0).tool = 1 ∨ (pts 0).tool = 2 →
        interfaceTool (pts 0).tool = some st.toolType) ∧
      ((pts 0).tool = 3 →
        interfaceTool (pts 0).tool = some StrokeTool.PENCIL ∧ st.toolType = StrokeTool.PEN) :=
  ⟨by decide, by decide, by decide!,
    C6_pencil_stored_as_pen exampleStore 1 (some pencilPoints) 1 (by decide)⟩

/-! ## C7: a failed ingestion changes nothing -/

/-- C7: `pn_xournal_doc_handle_stroke` with `count <= 0` returns
`PN_ERROR_INVALID_PARAM` and leaves the store as it was; and whenever it returns a
status other than `PN_SUCCESS`, the session table still holds the same handles with
the same documents (pages, layers, element sequences). -/
theorem C7_failed_stroke_changes_nothing (s : Store) (h : PN_DOC_HANDLE)
    (points : Option (Nat → PN_STROKE_POINT)) (count : Int) :
    (count ≤ 0 → pn_xournal_doc_handle_stroke s h points count = (s, PN_ERROR_INVALID_PARAM)) ∧
    ((pn_xournal_doc_handle_stroke s h points count).2 ≠ PN_SUCCESS →
      (pn_xournal_doc_handle_stroke s h points count).1.documents = s.documents ∧
      (pn_xournal_doc_handle_stroke s h points count).1.g_initialized = s.g_initialized) := by
  constructor
  · intro hc
    cases points with
    | none => simp [pn_xournal_doc_handle_stroke]
    | some pts => simp [pn_xournal_doc_handle_stroke, hc]
  · intro hs
    cases points with
    | none => simp [pn_xournal_doc_handle_stroke]
    | some pts =>
      by_cases hg : h = NULL ∨ count ≤ 0
      · simp [pn_xournal_doc_handle_stroke, hg]
      · cases hf : DocMap.find s.g_documents h with
        | none => simp [pn_xournal_doc_handle_stroke, hg, hf]
        | some pn =>
          rcases handle_stroke_body_cases pts count { pn with mutex := true } with hb | hb
          · simp only [pn_xournal_doc_handle_stroke, hg, if_false, hf, lock_guard, hb,
              Store.documents, and_true]
            exact DocMap.map_assign_same_doc _ _ pn _ hf rfl
          · obtain ⟨page, pages, layer, layers, hp, hl⟩ := hb
            have hb2 := handle_stroke_body_append pts count { pn with mutex := true } page pages
              layer layers hp hl
            exfalso
            apply hs
            simp [pn_xournal_doc_handle_stroke, hg, hf, lock_guard, hb2]

/-- C7 at the store of the example run: an empty batch, and a batch for the handle 2
that is not registered. -/
theorem C7_failed_stroke_changes_nothing_witness :
    pn_xournal_doc_handle_stroke exampleStore 1 (some examplePoints) 0
      = (exampleStore, PN_ERROR_INVALID_PARAM) ∧
    (pn_xournal_doc_handle_stroke exampleStore 2 (some examplePoints) 3).2 ≠ PN_SUCCESS ∧
    (pn_xournal_doc_handle_stroke exampleStore 2 (some examplePoints) 3).1.documents
      = exampleStore.documents :=
  ⟨(C7_failed_stroke_changes_nothing exampleStore 1 (some examplePoints) 0).1 (by decide),
    by decide,
    ((C7_failed_stroke_changes_nothing exampleStore 2 (some examplePoints) 3).2 (by decide)).1⟩

/-! ## C8: a failed save -/

/-- C8, the claim on the new document of the example run: the write of a save to
`a.xopp` throws, the save returns `PN_ERROR_IO_ERROR`, and the stored file path,
which was empty, is now `a.xopp`. -/
theorem C8_counterexample :
    exampleStore.filepath 1 = some none ∧
    (pn_xournal_doc_save exampleStore 1 (some "a.xopp") Outcome.fault).2 = PN_ERROR_IO_ERROR ∧
    (pn_xournal_doc_save exampleStore 1 (some "a.xopp") Outcome.fault).1.filepath 1
      = some (some "a.xopp") := by
  decide

/-- C8 as the code has it: for a registered handle (not null) and a path that is not
null, when the write of the file-format codec throws, `pn_xournal_doc_save` returns
`PN_ERROR_IO_ERROR`; the pages of the document are as before and every other entry
of the session table is as before, but the stored file path of the document is the
requested path: it is set before the write. -/
theorem C8_failed_save_sets_path (s : Store) (h : PN_DOC_HANDLE) (path : String)
    (pn : PonyNotesDocument) (hh : h ≠ NULL) (hf : DocMap.find s.g_documents h = some pn) :
    (pn_xournal_doc_save s h (some path) Outcome.fault).2 = PN_ERROR_IO_ERROR ∧
    (pn_xournal_doc_save s h (some path) Outcome.fault).1.pages h = some pn.doc.pages ∧
    (pn_xournal_doc_save s h (some path) Outcome.fault).1.filepath h = some (some path) ∧
    (∀ k : PN_DOC_HANDLE, k ≠ h →
      DocMap.find (pn_xournal_doc_save s h (some path) Outcome.fault).1.g_documents k
        = DocMap.find s.g_documents k) ∧
    (pn_xournal_doc_save s h (some path) Outcome.fault).1.g_initialized = s.g_initialized := by
  simp only [pn_xournal_doc_save, hh, if_false, hf]
  refine ⟨trivial, ?_, ?_, ?_, trivial⟩
  · simp [Store.pages, DocMap.find_assign_self, Document.lock, Document.setFilepath]
  · simp [Store.filepath, DocMap.find_assign_self, Document.lock, Document.setFilepath]
  · intro k hk
    exact DocMap.find_assign_ne _ _ _ _ hk

/-- C8 at the new document of the example run. -/
theorem C8_failed_save_sets_path_witness :
    (1 : PN_DOC_HANDLE) ≠ NULL ∧ DocMap.find exampleStore.g_documents 1 = some createdDocument ∧
    (pn_xournal_doc_save exampleStore 1 (some "a.xopp") Outcome.fault).1.filepath 1
      = some (some "a.xopp") :=
  ⟨by decide, rfl,
    (C8_failed_save_sets_path exampleStore 1 "a.xopp" createdDocument (by decide) rfl).2.2.1⟩

/-! ## C9: the example run -/

/-- C9, the example run of the specification: `init`, `create` with empty options
(the handle is 1), the three-point pen batch, then the render of page 0 at
200 x 200. The render succeeds, and the surface is 141 x 200: it is not 200 pixels
wide and 282 or 283 high. -/
theorem C9_counterexample :
    (pn_xournal_doc_handle_stroke exampleStore 1 (some examplePoints) 3).2 = PN_SUCCESS ∧
    (pn_xournal_doc_render_page_to_png
      (pn_xournal_doc_handle_stroke exampleStore 1 (some examplePoints) 3).1 1 0
      (some "out.png") 200 200 none workingBackend).map (fun r => (r.status, r.surface))
      = some (PN_SUCCESS, some (141, 200)) ∧
    (pn_xournal_doc_render_page_to_png
      (pn_xournal_doc_handle_stroke exampleStore 1 (some examplePoints) 3).1 1 0
      (some "out.png") 200 200 none workingBackend).map (fun r => r.surface)
      ≠ some (some (200, 282)) ∧
    (pn_xournal_doc_render_page_to_png
      (pn_xournal_doc_handle_stroke exampleStore 1 (some examplePoints) 3).1 1 0
      (some "out.png") 200 200 none workingBackend).map (fun r => r.surface)
      ≠ some (some (200, 283)) := by
  decide!

/-- C9 as the code has it: after `init`, `create` (any options, the new document at
an address `addr` that is not null) and an ingestion of a batch of three points,
which succeeds, the render of page 0 at 200 x 200 on a backend that succeeds returns
`PN_SUCCESS` and its surface is 141 pixels wide and 200 pixels high: the scale is
`min(200 / 595.275591, 200 / 841.889764) = 200 / 841.889764`, so the height bound
200 decides both axes. -/
theorem C9_example_run_141_by_200 (s0 : Store) (config options_json : Option String)
    (addr : PN_DOC_HANDLE) (pts : Nat → PN_STROKE_POINT) (path : String)
    (options : Option String) (backend : RasterBackend)
    (ha : addr ≠ NULL)
    (hb1 : backend.surface_create 141 200 = true) (hb2 : backend.create = true)
    (hb3 : backend.drawPage = Outcome.ok) (hb4 : backend.write_to_png = true) :
    (pn_xournal_doc_create (pn_xournal_init s0 config).1 true options_json addr).2
      = (PN_SUCCESS, some addr) ∧
    (pn_xournal_doc_handle_stroke
      (pn_xournal_doc_create (pn_xournal_init s0 config).1 true options_json addr).1
      addr (some pts) 3).2 = PN_SUCCESS ∧
    (pn_xournal_doc_render_page_to_png
      (pn_xournal_doc_handle_stroke
        (pn_xournal_doc_create (pn_xournal_init s0 config).1 true options_json addr).1
        addr (some pts) 3).1
      addr 0 (some path) 200 200 options backend).map (fun r => (r.status, r.surface))
      = some (PN_SUCCESS, some (141, 200)) := by
  have hi : (pn_xournal_init s0 config).1.g_initialized = true := rfl
  rw [create_eq _ options_json addr hi]
  refine ⟨rfl, ?_⟩
  have hk := handle_stroke_eq
    { (pn_xournal_init s0 config).1 with
      g_documents := (DocMap.assign (pn_xournal_init s0 config).1.g_documents addr
        createdDocument) }
    addr pts 3 createdDocument createdPage [] ⟨[]⟩ [] ha (by decide)
    (DocMap.find_assign_self _ _ _) rfl rfl
  rw [hk]
  refine ⟨rfl, ?_⟩
  have hp : (withStroke createdDocument createdPage [] ⟨[]⟩ [] (buildStroke pts 3)).doc.getPage
      (0 : Int).toNat
      = some { createdPage with
          layers := [(⟨[]⟩ : Layer).addElement (Element.stroke (buildStroke pts 3))] } := rfl
  have hlt : (0 : Int) < castInt
      (withStroke createdDocument createdPage [] ⟨[]⟩ [] (buildStroke pts 3)).doc.getPageCount := by
    have : (withStroke createdDocument createdPage [] ⟨[]⟩ []
      (buildStroke pts 3)).doc.getPageCount = 1 := rfl
    rw [this]
    decide
  have hw : ({ createdPage with
      layers := [(⟨[]⟩ : Layer).addElement (Element.stroke (buildStroke pts 3))] } : XojPage).width
      = A4_WIDTH := rfl
  have hh : ({ createdPage with
      layers := [(⟨[]⟩ : Layer).addElement (Element.stroke (buildStroke pts 3))] } : XojPage).height
      = A4_HEIGHT := rfl
  have hsz : renderSize 200 200
      ({ createdPage with
        layers := [(⟨[]⟩ : Layer).addElement (Element.stroke (buildStroke pts 3))] } : XojPage).width
      ({ createdPage with
        layers := [(⟨[]⟩ : Layer).addElement (Element.stroke (buildStroke pts 3))] } : XojPage).height
      = (some 141, some 200) := by
    rw [hw, hh]
    exact renderSize_A4_200_200
  rw [render_on_page _ addr
    (withStroke createdDocument createdPage [] ⟨[]⟩ [] (buildStroke pts 3)) 0
    { createdPage with
      layers := [(⟨[]⟩ : Layer).addElement (Element.stroke (buildStroke pts 3))] }
    path 200 200 options backend 141 200 ha
    (DocMap.find_assign_self _ _ _) (le_refl 0) hlt hp hsz hb1 hb2 hb3 hb4]
  rfl

/-- C9 at the store before any call, address 1, the batch of the example and a
backend that succeeds. -/
theorem C9_example_run_141_by_200_witness :
    (1 : PN_DOC_HANDLE) ≠ NULL ∧ workingBackend.surface_create 141 200 = true ∧
    (pn_xournal_doc_render_page_to_png
      (pn_xournal_doc_handle_stroke
        (pn_xournal_doc_create (pn_xournal_init Store.initial none).1 true none 1).1
        1 (some examplePoints) 3).1
      1 0 (some "out.png") 200 200 none workingBackend).map (fun r => (r.status, r.surface))
      = some (PN_SUCCESS, some (141, 200)) :=
  ⟨by decide, rfl,
    (C9_example_run_141_by_200 Store.initial none none 1 examplePoints "out.png" none
      workingBackend (by decide) rfl rfl rfl rfl).2.2⟩

/-! ## C10: the document lock on return -/

/-- C10 at the failing input: on the new document of the example run, whose lock is
free, a save whose write throws returns `PN_ERROR_IO_ERROR` and leaves the lock of
the document held once. -/
theorem C10_save_fault_leaves_lock_held :
    exampleStore.lockDepth 1 = some 0 ∧
    (pn_xournal_doc_save exampleStore 1 (some "out.xopp") Outcome.fault).2 = PN_ERROR_IO_ERROR ∧
    (pn_xournal_doc_save exampleStore 1 (some "out.xopp") Outcome.fault).1.lockDepth 1
      = some 1 := by
  decide

end PonyNotes
